import Mathlib

/-!
Shallow embedding of the SMetroidDSiPort gameplay-simulation core
(source/physics.c, source/room.c, source/enemy.c, source/projectile.c,
source/boss.c) together with theorems that settle the frozen claims
about its specification.

Conventions of the embedding:
* `fx32` (32-bit 16.16 fixed point) is modelled as `Int`; every value
  reached by the operations under study stays far inside the 32-bit
  range, so no wrapping is applied to fx32 arithmetic.
* `int16_t` fields (entity hit points) are modelled as `Int` with the
  two's-complement 16-bit conversion made explicit (`wrap16`) at every
  store that the C compiler would truncate.
* Arithmetic right shifts (`>> 16`, `>> 4`), which floor on the target
  compiler per the source comments, are modelled with `Int.fdiv`.
* The global room / pools / boss singleton are passed explicitly; a C
  function `void f(args)` that mutates a global of type `S` becomes
  `f : args → S → S`, and a function returning `int` becomes
  `args → S → Int × S`.  Calls into other subsystems that do not touch
  the state being modelled (sprite loading, camera shake, projectile
  spawning from inside boss AI, damage applied to the player) are
  effects outside that state and are dropped by the projection.
-/

set_option maxRecDepth 16000

namespace SMPort

/-! ## Fixed-point arithmetic (sm_types.h) -/

def FX_ONE : Int := 0x00010000

def INT_TO_FX (i : Int) : Int := i * 65536

/-- FX_TO_INT: arithmetic right shift by 16 (floors, per physics.c comment). -/
def FX_TO_INT (f : Int) : Int := Int.fdiv f 65536

def TILE_SIZE : Int := 16

/-- Conversion of an fx32 position to a tile coordinate (physics.c fx_to_tile):
`FX_TO_INT(pos) >> TILE_SHIFT` with arithmetic shifts. -/
def fx_to_tile (pos : Int) : Int := Int.fdiv (FX_TO_INT pos) 16

/-- Two's-complement conversion to a signed 16-bit value, as performed by the
target compiler when an `int` is stored into an `int16_t` field. -/
def wrap16 (x : Int) : Int := (x + 32768) % 65536 - 32768

/-! ## Collision type constants (sm_types.h) -/

def COLL_AIR : Nat := 0x00
def COLL_SOLID : Nat := 0x01

/-! ## Environment ids (physics.h enum EnvironmentType) -/

def ENV_AIR : Nat := 0
def ENV_WATER : Nat := 1
def ENV_LAVA : Nat := 2

/-! ## Physics constants (sm_physics_constants.h) -/

def GRAVITY_AIR : Int := 0x0000125C
def GRAVITY_WATER : Int := 0x0000053F
def GRAVITY_LAVA : Int := 0x000005E6
def TERMINAL_VEL_AIR : Int := 0x00050000
def TERMINAL_VEL_WATER : Int := 0x00050000
def TERMINAL_VEL_LAVA : Int := 0x00050000
def JUMP_VEL_NORMAL : Int := 0x00049000

/-! ## Core data model (sm_types.h, physics body) -/

structure Vec2fx where
  x : Int
  y : Int
deriving DecidableEq, Repr

structure AABBfx where
  half_w : Int
  half_h : Int
deriving DecidableEq, Repr

structure ContactFlags where
  on_ground : Bool
  on_ceiling : Bool
  on_wall_left : Bool
  on_wall_right : Bool
  in_water : Bool
  on_slope : Bool
deriving DecidableEq, Repr

/-- Contact record with every flag cleared (`memset(&body->contact, 0, …)`). -/
def clearedContact : ContactFlags :=
  { on_ground := false, on_ceiling := false, on_wall_left := false
    on_wall_right := false, in_water := false, on_slope := false }

structure PhysicsBody where
  pos : Vec2fx
  vel : Vec2fx
  accel : Vec2fx
  hitbox : AABBfx
  contact : ContactFlags
  env : Nat
deriving DecidableEq, Repr

/-! ## Room collision oracle (room.c) -/

structure Room where
  loaded : Bool
  width_tiles : Int
  height_tiles : Int
  /-- Row-major collision grid of `width_tiles * height_tiles` bytes. -/
  collision : List Nat
deriving DecidableEq, Repr

/-- room.c `room_get_collision`: out-of-range or unloaded queries return
COLL_SOLID; in range, the grid byte at `tile_y * width + tile_x`. -/
def room_get_collision (r : Room) (tile_x tile_y : Int) : Nat :=
  if ¬ r.loaded then COLL_SOLID
  else if tile_x < 0 ∨ tile_x ≥ r.width_tiles then COLL_SOLID
  else if tile_y < 0 ∨ tile_y ≥ r.height_tiles then COLL_SOLID
  else r.collision.getD (tile_y * r.width_tiles + tile_x).toNat 0

/-! ## Physics engine (physics.c) -/

/-- physics.c `row_has_solid`: any solid tile in columns
`tile_x_min..tile_x_max` of row `tile_y`. -/
def row_has_solid (r : Room) (tile_x_min tile_x_max tile_y : Int) : Bool :=
  (List.range (tile_x_max - tile_x_min + 1).toNat).any fun i =>
    room_get_collision r (tile_x_min + i) tile_y == COLL_SOLID

/-- physics.c `col_has_solid`: any solid tile in rows
`tile_y_min..tile_y_max` of column `tile_x`. -/
def col_has_solid (r : Room) (tile_x tile_y_min tile_y_max : Int) : Bool :=
  (List.range (tile_y_max - tile_y_min + 1).toNat).any fun i =>
    room_get_collision r tile_x (tile_y_min + i) == COLL_SOLID

/-- physics.c `resolve_horizontal`. -/
def resolve_horizontal (r : Room) (body : PhysicsBody) : PhysicsBody :=
  let top := body.pos.y - body.hitbox.half_h
  let bottom := body.pos.y + body.hitbox.half_h
  let tile_t := fx_to_tile top
  let tile_b := fx_to_tile (bottom - 1)
  if body.vel.x > 0 then
    let right := body.pos.x + body.hitbox.half_w
    let tile_x := fx_to_tile (right - 1)
    if col_has_solid r tile_x tile_t tile_b then
      { body with pos.x := INT_TO_FX (tile_x * TILE_SIZE) - body.hitbox.half_w
                  vel.x := 0
                  contact.on_wall_right := true }
    else body
  else if body.vel.x < 0 then
    let left := body.pos.x - body.hitbox.half_w
    let tile_x := fx_to_tile left
    if col_has_solid r tile_x tile_t tile_b then
      { body with pos.x := INT_TO_FX ((tile_x + 1) * TILE_SIZE) + body.hitbox.half_w
                  vel.x := 0
                  contact.on_wall_left := true }
    else body
  else body

/-- physics.c `resolve_vertical`. -/
def resolve_vertical (r : Room) (body : PhysicsBody) : PhysicsBody :=
  let left := body.pos.x - body.hitbox.half_w
  let right := body.pos.x + body.hitbox.half_w
  let tile_l := fx_to_tile left
  let tile_r := fx_to_tile (right - 1)
  if body.vel.y > 0 then
    let bottom := body.pos.y + body.hitbox.half_h
    let tile_y := fx_to_tile (bottom - 1)
    if row_has_solid r tile_l tile_r tile_y then
      { body with pos.y := INT_TO_FX (tile_y * TILE_SIZE) - body.hitbox.half_h
                  vel.y := 0
                  contact.on_ground := true }
    else body
  else if body.vel.y < 0 then
    let top := body.pos.y - body.hitbox.half_h
    let tile_y := fx_to_tile top
    if row_has_solid r tile_l tile_r tile_y then
      { body with pos.y := INT_TO_FX ((tile_y + 1) * TILE_SIZE) + body.hitbox.half_h
                  vel.y := 0
                  contact.on_ceiling := true }
    else body
  else body

/-- physics.c `check_ground_sensor`. -/
def check_ground_sensor (r : Room) (body : PhysicsBody) : PhysicsBody :=
  if body.contact.on_ground then body
  else
    let sensor_y := body.pos.y + body.hitbox.half_h
    let tile_y := fx_to_tile sensor_y
    let tile_l := fx_to_tile (body.pos.x - body.hitbox.half_w)
    let tile_r := fx_to_tile (body.pos.x + body.hitbox.half_w - 1)
    if row_has_solid r tile_l tile_r tile_y then
      { body with contact.on_ground := true }
    else body

/-- physics.c `physics_apply_gravity`: environment-specific gravity added to
vel.y, then clamped (downward only) to the terminal velocity. -/
def physics_apply_gravity (body : PhysicsBody) : PhysicsBody :=
  let gravity := if body.env = ENV_WATER then GRAVITY_WATER
                 else if body.env = ENV_LAVA then GRAVITY_LAVA
                 else GRAVITY_AIR
  let terminal := if body.env = ENV_WATER then TERMINAL_VEL_WATER
                  else if body.env = ENV_LAVA then TERMINAL_VEL_LAVA
                  else TERMINAL_VEL_AIR
  let vy := body.vel.y + gravity
  { body with vel.y := if vy > terminal then terminal else vy }

/-- Steps 2-3 of physics.c `physics_update_body`: apply external acceleration
to velocity, then clear the contact flags. -/
def accel_and_clear (body : PhysicsBody) : PhysicsBody :=
  { body with vel.x := body.vel.x + body.accel.x
              vel.y := body.vel.y + body.accel.y
              contact := clearedContact }

/-- Step 4 of `physics_update_body`: move along X, resolve X collisions. -/
def move_resolve_x (r : Room) (body : PhysicsBody) : PhysicsBody :=
  resolve_horizontal r { body with pos.x := body.pos.x + body.vel.x }

/-- Step 5 of `physics_update_body`: move along Y, resolve Y collisions. -/
def move_resolve_y (r : Room) (body : PhysicsBody) : PhysicsBody :=
  resolve_vertical r { body with pos.y := body.pos.y + body.vel.y }

/-- physics.c `physics_update_body`: gravity, acceleration, clear flags,
X move+resolve, Y move+resolve, ground sensor, in this fixed order. -/
def physics_update_body (r : Room) (body : PhysicsBody) : PhysicsBody :=
  check_ground_sensor r
    (move_resolve_y r
      (move_resolve_x r
        (accel_and_clear
          (physics_apply_gravity body))))

/-! ## Direction ids (sm_types.h) -/

def DIR_LEFT : Nat := 0
def DIR_RIGHT : Nat := 1

/-! ## Enemy pool (enemy.h / enemy.c) -/

def ENEMY_NONE : Nat := 0
def ENEMY_TYPE_COUNT : Nat := 8
def MAX_ENEMIES : Nat := 16

structure Enemy where
  type : Nat
  body : PhysicsBody
  facing : Nat
  hp : Int
  hp_max : Int
  damage_contact : Int
  ai_timer : Nat
  ai_state : Nat
  anim_frame : Nat
  anim_timer : Nat
  active : Bool
deriving DecidableEq, Repr

def zeroVec : Vec2fx := ⟨0, 0⟩

def zeroBody : PhysicsBody :=
  { pos := zeroVec, vel := zeroVec, accel := zeroVec
    hitbox := ⟨0, 0⟩, contact := clearedContact, env := 0 }

/-- Enemy slot after `memset(e, 0, sizeof(Enemy))`. -/
def zeroEnemy : Enemy :=
  { type := 0, body := zeroBody, facing := 0, hp := 0, hp_max := 0
    damage_contact := 0, ai_timer := 0, ai_state := 0
    anim_frame := 0, anim_timer := 0, active := false }

structure EnemyTypeDef where
  hp : Int
  damage : Int
  speed : Int
  half_w : Int
  half_h : Int
deriving DecidableEq, Repr

/-- enemy.c `enemy_defs` static per-type definition table. -/
def enemy_defs : Nat → EnemyTypeDef
  | 1 => ⟨20, 8, 0x00008000, INT_TO_FX 6, INT_TO_FX 6⟩    -- ENEMY_ZOOMER
  | 2 => ⟨60, 20, 0x0000C000, INT_TO_FX 6, INT_TO_FX 6⟩   -- ENEMY_GEEMER
  | 3 => ⟨40, 16, 0x00010000, INT_TO_FX 6, INT_TO_FX 6⟩   -- ENEMY_WAVER
  | 4 => ⟨1, 16, 0x00018000, INT_TO_FX 4, INT_TO_FX 4⟩    -- ENEMY_RINKA
  | 5 => ⟨200, 40, 0x00018000, INT_TO_FX 8, INT_TO_FX 12⟩ -- ENEMY_SIDEHOPPER
  | 6 => ⟨600, 48, 0x00010000, INT_TO_FX 8, INT_TO_FX 8⟩  -- ENEMY_KI_HUNTER
  | 7 => ⟨400, 32, 0x00010000, INT_TO_FX 6, INT_TO_FX 10⟩ -- ENEMY_ZEBESIAN
  | _ => ⟨0, 0, 0, 0, 0⟩                                  -- ENEMY_NONE

/-- The static `pool[MAX_ENEMIES]` array plus the `active_count` counter. -/
structure EnemyPool where
  slots : List Enemy
  active_count : Nat
deriving DecidableEq, Repr

/-- enemy.c `enemy_clear_all`: zero the whole array and the counter. -/
def enemy_clear_all (_p : EnemyPool) : EnemyPool :=
  { slots := List.replicate MAX_ENEMIES zeroEnemy, active_count := 0 }

/-- enemy.c `enemy_spawn`: sentinel −1 (no mutation) on an invalid type id or
a full pool; otherwise the slot at `active_count` is zeroed and initialized
from `enemy_defs`, the counter is incremented and the index returned. -/
def enemy_spawn (type : Nat) (x y : Int) (p : EnemyPool) : Int × EnemyPool :=
  if type = ENEMY_NONE ∨ type ≥ ENEMY_TYPE_COUNT then (-1, p)
  else if p.active_count ≥ MAX_ENEMIES then (-1, p)
  else
    let d := enemy_defs type
    let e : Enemy :=
      { zeroEnemy with
          type := type, active := true, hp := d.hp, hp_max := d.hp
          damage_contact := d.damage, facing := DIR_LEFT
          body := { zeroBody with
                      pos := ⟨x, y⟩
                      hitbox := ⟨d.half_w, d.half_h⟩
                      env := ENV_AIR } }
    ((p.active_count : Int),
     { slots := p.slots.set p.active_count e, active_count := p.active_count + 1 })

/-- enemy.c `enemy_remove`: swap-remove.  Invalid indices change nothing;
otherwise the last active slot is copied into `index` (unless `index` is that
slot), the counter is decremented, and the vacated tail slot is zeroed. -/
def enemy_remove (index : Int) (p : EnemyPool) : EnemyPool :=
  if index < 0 ∨ index ≥ (p.active_count : Int) then p
  else
    let ac := p.active_count - 1
    let slots :=
      if index < (ac : Int) then
        p.slots.set index.toNat (p.slots.getD ac zeroEnemy)
      else p.slots
    { slots := slots.set ac zeroEnemy, active_count := ac }

/-- enemy.c `enemy_damage`: subtract damage from the slot's int16 hp and set
`active = false` (not removing the slot) when hp reaches 0 or below. -/
def enemy_damage (index : Int) (damage : Int) (p : EnemyPool) : EnemyPool :=
  if index < 0 ∨ index ≥ (p.active_count : Int) then p
  else
    let e := p.slots.getD index.toNat zeroEnemy
    let e := { e with hp := wrap16 (e.hp - damage) }
    let e := if e.hp ≤ 0 then { e with active := false } else e
    { p with slots := p.slots.set index.toNat e }

/-! ## Projectile pool (projectile.h / projectile.c) -/

def PROJ_NONE : Nat := 0
def PROJ_BOMB : Nat := 8
def PROJ_POWER_BOMB : Nat := 9
def PROJ_TYPE_COUNT : Nat := 11
def MAX_PROJECTILES : Nat := 32
def BOMB_TIMER_FRAMES : Nat := 87

structure Projectile where
  type : Nat
  owner : Nat
  pos : Vec2fx
  vel : Vec2fx
  hitbox : AABBfx
  damage : Int
  lifetime : Nat
  timer : Nat
  active : Bool
deriving DecidableEq, Repr

/-- Projectile slot after `memset(p, 0, sizeof(Projectile))`. -/
def zeroProjectile : Projectile :=
  { type := 0, owner := 0, pos := zeroVec, vel := zeroVec, hitbox := ⟨0, 0⟩
    damage := 0, lifetime := 0, timer := 0, active := false }

structure ProjTypeDef where
  damage : Int
  speed : Int
  lifetime : Nat
  half_w : Int
  half_h : Int
  wall_pass : Bool
  enemy_pass : Bool
deriving DecidableEq, Repr

/-- projectile.c `proj_defs` static per-type definition table. -/
def proj_defs : Nat → ProjTypeDef
  | 1 => ⟨20, INT_TO_FX 4, 30, INT_TO_FX 4, INT_TO_FX 2, false, false⟩   -- POWER_BEAM
  | 2 => ⟨30, INT_TO_FX 3, 30, INT_TO_FX 4, INT_TO_FX 2, false, false⟩   -- ICE_BEAM
  | 3 => ⟨50, INT_TO_FX 4, 45, INT_TO_FX 4, INT_TO_FX 2, true, false⟩    -- WAVE_BEAM
  | 4 => ⟨40, INT_TO_FX 4, 30, INT_TO_FX 6, INT_TO_FX 4, false, false⟩   -- SPAZER_BEAM
  | 5 => ⟨150, INT_TO_FX 4, 30, INT_TO_FX 4, INT_TO_FX 2, false, true⟩   -- PLASMA_BEAM
  | 6 => ⟨100, INT_TO_FX 5, 60, INT_TO_FX 4, INT_TO_FX 2, false, false⟩  -- MISSILE
  | 7 => ⟨300, INT_TO_FX 5, 60, INT_TO_FX 4, INT_TO_FX 2, false, false⟩  -- SUPER_MISSILE
  | 8 => ⟨30, 0, BOMB_TIMER_FRAMES, INT_TO_FX 8, INT_TO_FX 8, false, false⟩    -- BOMB
  | 9 => ⟨200, 0, BOMB_TIMER_FRAMES, INT_TO_FX 32, INT_TO_FX 32, false, false⟩ -- POWER_BOMB
  | 10 => ⟨10, INT_TO_FX 2, 120, INT_TO_FX 3, INT_TO_FX 3, false, false⟩ -- ENEMY_BULLET
  | _ => ⟨0, 0, 0, 0, 0, false, false⟩                                   -- PROJ_NONE

/-- The static projectile `pool[MAX_PROJECTILES]` array plus `active_count`. -/
structure ProjectilePool where
  slots : List Projectile
  active_count : Nat
deriving DecidableEq, Repr

/-- projectile.c `projectile_clear_all`. -/
def projectile_clear_all (_p : ProjectilePool) : ProjectilePool :=
  { slots := List.replicate MAX_PROJECTILES zeroProjectile, active_count := 0 }

/-- projectile.c `projectile_spawn`: sentinel −1 (no mutation) on an invalid
type id or a full pool; otherwise the slot at `active_count` is zeroed and
initialized from `proj_defs` plus the position/velocity arguments (bombs also
copy the lifetime into the explosion timer), the counter is incremented and
the index returned. -/
def projectile_spawn (type owner : Nat) (x y vx vy : Int)
    (p : ProjectilePool) : Int × ProjectilePool :=
  if type = PROJ_NONE ∨ type ≥ PROJ_TYPE_COUNT then (-1, p)
  else if p.active_count ≥ MAX_PROJECTILES then (-1, p)
  else
    let d := proj_defs type
    let pr : Projectile :=
      { zeroProjectile with
          type := type, owner := owner, active := true
          damage := d.damage, lifetime := d.lifetime
          hitbox := ⟨d.half_w, d.half_h⟩
          pos := ⟨x, y⟩, vel := ⟨vx, vy⟩
          timer := if type = PROJ_BOMB ∨ type = PROJ_POWER_BOMB
                   then d.lifetime else 0 }
    ((p.active_count : Int),
     { slots := p.slots.set p.active_count pr, active_count := p.active_count + 1 })

/-- projectile.c `projectile_remove`: the same swap-remove as the enemy pool. -/
def projectile_remove (index : Int) (p : ProjectilePool) : ProjectilePool :=
  if index < 0 ∨ index ≥ (p.active_count : Int) then p
  else
    let ac := p.active_count - 1
    let slots :=
      if index < (ac : Int) then
        p.slots.set index.toNat (p.slots.getD ac zeroProjectile)
      else p.slots
    { slots := slots.set ac zeroProjectile, active_count := ac }

/-! ## Boss singleton (boss.h / boss.c) -/

def BOSS_NONE : Nat := 0
def BOSS_SPORE_SPAWN : Nat := 1
def BOSS_CROCOMIRE : Nat := 2
def BOSS_BOMB_TORIZO : Nat := 3
def BOSS_KRAID : Nat := 4
def BOSS_BOTWOON : Nat := 5
def BOSS_PHANTOON : Nat := 6
def BOSS_DRAYGON : Nat := 7
def BOSS_GOLDEN_TORIZO : Nat := 8
def BOSS_RIDLEY : Nat := 9
def BOSS_MOTHER_BRAIN : Nat := 10
def BOSS_TYPE_COUNT : Nat := 11

def BOSS_HIT_INVULN : Nat := 10

structure Boss where
  type : Nat
  body : PhysicsBody
  hp : Int
  hp_max : Int
  phase : Nat
  ai_state : Nat
  ai_timer : Nat
  ai_counter : Nat
  damage_contact : Int
  active : Bool
  vulnerable : Bool
  invuln_timer : Nat
  anchor_x : Int
  anchor_y : Int
  param_a : Int
  param_b : Int
  sub_timer : Nat
  attack_count : Nat
deriving DecidableEq, Repr

/-- Boss record after `memset(&g_boss, 0, sizeof(Boss))`. -/
def zeroBoss : Boss :=
  { type := 0, body := zeroBody, hp := 0, hp_max := 0, phase := 0
    ai_state := 0, ai_timer := 0, ai_counter := 0, damage_contact := 0
    active := false, vulnerable := false, invuln_timer := 0
    anchor_x := 0, anchor_y := 0, param_a := 0, param_b := 0
    sub_timer := 0, attack_count := 0 }

/-! Spore Spawn states and constants -/
def SS_SWING : Nat := 0
def SS_DEATH : Nat := 6
def SS_HP : Int := 960
def SS_CONTACT_DAMAGE : Int := 40

/-! Crocomire states and constants -/
def CROC_ADVANCE : Nat := 0
def CROC_SPIT : Nat := 1
def CROC_FLINCH : Nat := 2
def CROC_LUNGE : Nat := 3
def CROC_FALLING : Nat := 4
def CROC_DEATH : Nat := 5
def CROC_HP_DUMMY : Int := 9999
def CROC_CONTACT_DAMAGE : Int := 30
def CROC_ADVANCE_SPEED : Int := 0x4000
def CROC_PUSH_PER_HIT : Int := INT_TO_FX 8
def CROC_PUSH_THRESHOLD : Int := INT_TO_FX 160
def CROC_FLINCH_FRAMES : Nat := 20
def CROC_SPIT_FRAMES : Nat := 40
def CROC_SPIT_SPEED : Int := INT_TO_FX 3
def CROC_LUNGE_SPEED : Int := INT_TO_FX 3
def CROC_LUNGE_FRAMES : Nat := 15
def CROC_ADVANCE_DURATION : Nat := 180
def CROC_LUNGE_EVERY : Nat := 3
def CROC_DEATH_FRAMES : Nat := 90
def CROC_FALL_SPEED : Int := INT_TO_FX 2
def CROC_FALL_FRAMES : Nat := 45

/-! Bomb Torizo states and constants -/
def BT_STATUE : Nat := 0
def BT_DEATH : Nat := 6
def BT_HP : Int := 800
def BT_CONTACT_DAMAGE : Int := 20

/-! Kraid states and constants -/
def KRAID_RISE : Nat := 0
def KRAID_FLINCH : Nat := 5
def KRAID_DEATH : Nat := 6
def KRAID_HP : Int := 1000
def KRAID_CONTACT_DAMAGE : Int := 40
def KRAID_RISE_OFFSET : Int := INT_TO_FX 48

/-! Botwoon states and constants -/
def BOT_HIDDEN : Nat := 0
def BOT_DEATH : Nat := 5
def BOT_HP : Int := 3000
def BOT_CONTACT_DAMAGE : Int := 30

/-! Phantoon states and constants -/
def PH_INVISIBLE : Nat := 0
def PH_DEATH : Nat := 5
def PH_HP : Int := 2500
def PH_CONTACT_DAMAGE : Int := 30

/-! Draygon states and constants -/
def DY_SWIM : Nat := 0
def DY_DEATH : Nat := 5
def DY_HP : Int := 6000
def DY_CONTACT_DAMAGE : Int := 40

/-! Golden Torizo states and constants -/
def GT_IDLE : Nat := 0
def GT_CATCH : Nat := 3
def GT_THROW_BACK : Nat := 4
def GT_DEATH : Nat := 6
def GT_HP : Int := 8000
def GT_CONTACT_DAMAGE : Int := 50
def GT_IDLE_MIN : Nat := 20

/-! Ridley states and constants -/
def RI_FLY : Nat := 0
def RI_DEATH : Nat := 5
def RI_HP : Int := 18000
def RI_CONTACT_DAMAGE : Int := 60

/-! Mother Brain states and constants -/
def MB_TANK_IDLE : Nat := 0
def MB_TANK_ATTACK : Nat := 1
def MB_TANK_BREAK : Nat := 2
def MB_STAND_IDLE : Nat := 3
def MB_STAND_BEAM : Nat := 4
def MB_STAND_BOMB : Nat := 5
def MB_HYPER_SETUP : Nat := 6
def MB_HYPER_BEAM : Nat := 7
def MB_DEATH : Nat := 8
def MB_HP_PHASE1 : Int := 3000
def MB_HP_PHASE2 : Int := 18000
def MB_HP_PHASE3 : Int := 36000
def MB_CONTACT_DAMAGE : Int := 20
def MB_RINKA_INTERVAL : Nat := 60
def MB_BEAM_FRAMES : Nat := 30
def MB_BOMB_FRAMES : Nat := 25
def MB_BREAK_FRAMES : Nat := 90
def MB_HYPER_SETUP_FRAMES : Nat := 120
def MB_IDLE_FRAMES : Nat := 60
def MB_DEATH_FRAMES : Nat := 180

/-! ### Per-type init functions (run by `boss_spawn` after the basic setup) -/

/-- boss.c `spore_spawn_init`. -/
def spore_spawn_init (g : Boss) : Boss :=
  { g with hp := SS_HP, hp_max := SS_HP, damage_contact := SS_CONTACT_DAMAGE
           body.hitbox := ⟨INT_TO_FX 12, INT_TO_FX 16⟩
           vulnerable := false, ai_state := SS_SWING, ai_timer := 0
           ai_counter := 0, param_a := 0, sub_timer := 0
           anchor_x := g.body.pos.x, anchor_y := g.body.pos.y }

/-- boss.c `crocomire_init`: dummy hp, always vulnerable, and the lava
threshold anchored at spawn x plus `CROC_PUSH_THRESHOLD`. -/
def crocomire_init (g : Boss) : Boss :=
  { g with hp := CROC_HP_DUMMY, hp_max := CROC_HP_DUMMY
           damage_contact := CROC_CONTACT_DAMAGE
           body.hitbox := ⟨INT_TO_FX 16, INT_TO_FX 20⟩
           vulnerable := true, ai_state := CROC_ADVANCE, ai_timer := 0
           ai_counter := 0, sub_timer := 0, attack_count := 0
           anchor_x := g.body.pos.x + CROC_PUSH_THRESHOLD
           anchor_y := g.body.pos.y }

/-- boss.c `bomb_torizo_init`. -/
def bomb_torizo_init (g : Boss) : Boss :=
  { g with hp := BT_HP, hp_max := BT_HP, damage_contact := BT_CONTACT_DAMAGE
           body.hitbox := ⟨INT_TO_FX 12, INT_TO_FX 20⟩
           vulnerable := false, ai_state := BT_STATUE, ai_timer := 0
           ai_counter := 0, sub_timer := 0, attack_count := 0
           param_a := g.body.pos.x }

/-- boss.c `kraid_init`. -/
def kraid_init (g : Boss) : Boss :=
  { g with hp := KRAID_HP, hp_max := KRAID_HP
           damage_contact := KRAID_CONTACT_DAMAGE
           body.hitbox := ⟨INT_TO_FX 20, INT_TO_FX 24⟩
           vulnerable := false, ai_state := KRAID_RISE, ai_timer := 0
           ai_counter := 0, sub_timer := 0, attack_count := 0
           param_a := g.body.pos.y
           body.pos.y := g.body.pos.y + KRAID_RISE_OFFSET }

/-- boss.c `botwoon_init`. -/
def botwoon_init (g : Boss) : Boss :=
  { g with hp := BOT_HP, hp_max := BOT_HP, damage_contact := BOT_CONTACT_DAMAGE
           body.hitbox := ⟨INT_TO_FX 10, INT_TO_FX 10⟩
           vulnerable := false, ai_state := BOT_HIDDEN, ai_timer := 0
           ai_counter := 0, sub_timer := 0, attack_count := 0
           param_a := 0, param_b := 0
           anchor_x := g.body.pos.x, anchor_y := g.body.pos.y }

/-- boss.c `phantoon_init`. -/
def phantoon_init (g : Boss) : Boss :=
  { g with hp := PH_HP, hp_max := PH_HP, damage_contact := PH_CONTACT_DAMAGE
           body.hitbox := ⟨INT_TO_FX 16, INT_TO_FX 16⟩
           vulnerable := false, ai_state := PH_INVISIBLE, ai_timer := 0
           ai_counter := 0, sub_timer := 0, attack_count := 0
           param_a := 0, param_b := 0
           anchor_x := g.body.pos.x, anchor_y := g.body.pos.y }

/-- boss.c `draygon_init`. -/
def draygon_init (g : Boss) : Boss :=
  { g with hp := DY_HP, hp_max := DY_HP, damage_contact := DY_CONTACT_DAMAGE
           body.hitbox := ⟨INT_TO_FX 18, INT_TO_FX 14⟩
           vulnerable := true, ai_state := DY_SWIM, ai_timer := 0
           param_a := FX_ONE, param_b := 0, sub_timer := 0, attack_count := 0
           anchor_x := g.body.pos.x, anchor_y := g.body.pos.y }

/-- boss.c `golden_torizo_init`. -/
def golden_torizo_init (g : Boss) : Boss :=
  { g with hp := GT_HP, hp_max := GT_HP, damage_contact := GT_CONTACT_DAMAGE
           body.hitbox := ⟨INT_TO_FX 14, INT_TO_FX 22⟩
           vulnerable := true, ai_state := GT_IDLE, ai_timer := 0
           ai_counter := 0, sub_timer := GT_IDLE_MIN, attack_count := 0
           param_a := g.body.pos.x, param_b := 0 }

/-- boss.c `ridley_init`. -/
def ridley_init (g : Boss) : Boss :=
  { g with hp := RI_HP, hp_max := RI_HP, damage_contact := RI_CONTACT_DAMAGE
           body.hitbox := ⟨INT_TO_FX 16, INT_TO_FX 18⟩
           vulnerable := true, ai_state := RI_FLY, ai_timer := 0
           ai_counter := 0, sub_timer := 0, attack_count := 0
           param_a := FX_ONE
           anchor_x := g.body.pos.x, anchor_y := g.body.pos.y }

/-- boss.c `mother_brain_init`. -/
def mother_brain_init (g : Boss) : Boss :=
  { g with hp := MB_HP_PHASE1, hp_max := MB_HP_PHASE1
           damage_contact := MB_CONTACT_DAMAGE
           body.hitbox := ⟨INT_TO_FX 16, INT_TO_FX 16⟩
           vulnerable := true, phase := 0, ai_state := MB_TANK_IDLE
           ai_timer := 0, ai_counter := 0, sub_timer := 0, attack_count := 0 }

/-- boss.c `boss_init_fns` dispatch table (identity for the NULL entry). -/
def boss_init_dispatch : Nat → Boss → Boss
  | 1 => spore_spawn_init
  | 2 => crocomire_init
  | 3 => bomb_torizo_init
  | 4 => kraid_init
  | 5 => botwoon_init
  | 6 => phantoon_init
  | 7 => draygon_init
  | 8 => golden_torizo_init
  | 9 => ridley_init
  | 10 => mother_brain_init
  | _ => id

/-- boss.c `boss_spawn`: an invalid type id returns without touching the
singleton at all; otherwise the singleton is zeroed, given the type, the
active flag, the position and the air environment, and the type-specific
init function runs. -/
def boss_spawn (type : Nat) (x y : Int) (g : Boss) : Boss :=
  if type = BOSS_NONE ∨ type ≥ BOSS_TYPE_COUNT then g
  else
    boss_init_dispatch type
      { zeroBoss with type := type, active := true
                      body := { zeroBody with pos := ⟨x, y⟩, env := ENV_AIR } }

/-- boss.c `boss_damage`, Crocomire special case: the hit is converted into
a push toward the lava threshold (hp untouched); past the threshold the
position is clamped and the boss starts falling. -/
def boss_damage_crocomire (g : Boss) : Boss :=
  let g := { g with invuln_timer := BOSS_HIT_INVULN
                    body.pos.x := g.body.pos.x + CROC_PUSH_PER_HIT
                    ai_state := CROC_FLINCH, ai_timer := 0 }
  if g.body.pos.x ≥ g.anchor_x then
    { g with body.pos.x := g.anchor_x, vulnerable := false
             ai_state := CROC_FALLING, ai_timer := 0 }
  else g

/-- boss.c `boss_damage`, Kraid flinch-on-hit block. -/
def boss_damage_kraid_flinch (g : Boss) : Boss :=
  if g.type = BOSS_KRAID ∧ 0 < g.hp then
    { g with ai_state := KRAID_FLINCH, ai_timer := 0, vulnerable := false }
  else g

/-- boss.c `boss_damage`, Phantoon rage-on-super-missile block. -/
def boss_damage_phantoon_rage (damage : Int) (g : Boss) : Boss :=
  if g.type = BOSS_PHANTOON ∧ 0 < g.hp ∧ damage ≥ 200 ∧ g.param_b = 0 then
    { g with param_b := FX_ONE }
  else g

/-- boss.c `boss_damage`, start of the `hp <= 0` kill block: hp clamps to 0,
the boss becomes invulnerable and its timer restarts. -/
def boss_damage_kill_common (g : Boss) : Boss :=
  { g with hp := 0, vulnerable := false, ai_timer := 0 }

/-- boss.c `boss_damage`, the `switch (g_boss.type)` of the `hp <= 0` kill
block: the ai_state moves to the type-specific death (or, for Mother Brain
phases 0/1, phase-transition) state; only an unknown type falls through to
immediate deactivation. -/
def boss_damage_death_state (g : Boss) : Boss :=
  if g.type = 1 then { g with ai_state := SS_DEATH }          -- BOSS_SPORE_SPAWN
  else if g.type = 3 then { g with ai_state := BT_DEATH }     -- BOSS_BOMB_TORIZO
  else if g.type = 4 then { g with ai_state := KRAID_DEATH }  -- BOSS_KRAID
  else if g.type = 5 then { g with ai_state := BOT_DEATH }    -- BOSS_BOTWOON
  else if g.type = 6 then { g with ai_state := PH_DEATH }     -- BOSS_PHANTOON
  else if g.type = 7 then { g with ai_state := DY_DEATH }     -- BOSS_DRAYGON
  else if g.type = 8 then { g with ai_state := GT_DEATH }     -- BOSS_GOLDEN_TORIZO
  else if g.type = 9 then { g with ai_state := RI_DEATH }     -- BOSS_RIDLEY
  else if g.type = 10 then                                    -- BOSS_MOTHER_BRAIN
    if g.phase = 0 then
      { g with ai_state := MB_TANK_BREAK, ai_timer := 0, vulnerable := false }
    else if g.phase = 1 then
      { g with ai_state := MB_HYPER_SETUP, ai_timer := 0, vulnerable := false }
    else { g with ai_state := MB_DEATH }
  else { g with active := false }

/-- boss.c `boss_damage`, the whole `hp <= 0` kill block. -/
def boss_damage_death_switch (g : Boss) : Boss :=
  boss_damage_death_state (boss_damage_kill_common g)

/-- boss.c `boss_damage`.  Inactive, invulnerable-flagged, or i-framed bosses
are left untouched.  Crocomire converts the hit into a push toward the lava
threshold and never loses hp.  Otherwise hp is reduced (int16 store) and the
10-frame invulnerability window starts; Kraid flinches, Phantoon enrages on
damage ≥ 200, Golden Torizo catches damage ≥ 200 (undoing the deduction and
skipping the death check), and a kill runs the death switch.  Effects
outside the boss record (camera shake) are dropped. -/
def boss_damage (damage : Int) (g : Boss) : Boss :=
  if ¬ g.active then g
  else if ¬ g.vulnerable then g
  else if g.invuln_timer > 0 then g
  else if g.type = BOSS_CROCOMIRE then boss_damage_crocomire g
  else
    let g := { g with hp := wrap16 (g.hp - damage)
                      invuln_timer := BOSS_HIT_INVULN }
    let g := boss_damage_kraid_flinch g
    let g := boss_damage_phantoon_rage damage g
    if g.type = BOSS_GOLDEN_TORIZO ∧ 0 < g.hp ∧ damage ≥ 200 ∧
       g.ai_state ≠ GT_CATCH ∧ g.ai_state ≠ GT_THROW_BACK then
      { g with hp := wrap16 (g.hp + damage), ai_state := GT_CATCH
               ai_timer := 0, param_b := FX_ONE }
    else if g.hp ≤ 0 then boss_damage_death_switch g
    else g

/-- The `if (b->invuln_timer > 0) b->invuln_timer--;` line at the top of
every boss update function. -/
def boss_tick_invuln (b : Boss) : Boss :=
  if b.invuln_timer > 0 then { b with invuln_timer := b.invuln_timer - 1 } else b

/-- boss.c `crocomire_update`, projected to the boss record.  `px` is the
player's x position (`g_player.body.pos.x`), the only player input that
influences the boss state; projectile spawning (CROC_SPIT) and contact
damage to the player leave the boss record untouched and are dropped. -/
def crocomire_update (px : Int) (b : Boss) : Boss :=
  let b := boss_tick_invuln b
  if b.ai_state = CROC_ADVANCE then
    let b := if px - b.body.pos.x < 0 then
               { b with body.pos.x := b.body.pos.x - CROC_ADVANCE_SPEED }
             else { b with body.pos.x := b.body.pos.x + CROC_ADVANCE_SPEED }
    let b := { b with ai_timer := b.ai_timer + 1 }
    if b.ai_timer ≥ CROC_ADVANCE_DURATION then
      if b.attack_count ≥ CROC_LUNGE_EVERY then
        { b with ai_state := CROC_LUNGE, attack_count := 0, ai_timer := 0 }
      else { b with ai_state := CROC_SPIT, ai_timer := 0 }
    else b
  else if b.ai_state = CROC_SPIT then
    let b := if b.ai_timer = 0 then { b with attack_count := b.attack_count + 1 }
             else b
    let b := { b with ai_timer := b.ai_timer + 1 }
    if b.ai_timer ≥ CROC_SPIT_FRAMES then
      { b with ai_state := CROC_ADVANCE, ai_timer := 0 }
    else b
  else if b.ai_state = CROC_FLINCH then
    let b := { b with ai_timer := b.ai_timer + 1 }
    if b.ai_timer ≥ CROC_FLINCH_FRAMES then
      { b with ai_state := CROC_ADVANCE, ai_timer := 0 }
    else b
  else if b.ai_state = CROC_LUNGE then
    let b := if px - b.body.pos.x < 0 then
               { b with body.pos.x := b.body.pos.x - CROC_LUNGE_SPEED }
             else { b with body.pos.x := b.body.pos.x + CROC_LUNGE_SPEED }
    let b := { b with ai_timer := b.ai_timer + 1 }
    if b.ai_timer ≥ CROC_LUNGE_FRAMES then
      { b with ai_state := CROC_ADVANCE, ai_timer := 0 }
    else b
  else if b.ai_state = CROC_FALLING then
    let b := { b with body.pos.y := b.body.pos.y + CROC_FALL_SPEED
                      ai_timer := b.ai_timer + 1 }
    if b.ai_timer ≥ CROC_FALL_FRAMES then
      { b with ai_state := CROC_DEATH, ai_timer := 0 }
    else b
  else if b.ai_state = CROC_DEATH then
    let b := { b with ai_timer := b.ai_timer + 1 }
    if b.ai_timer ≥ CROC_DEATH_FRAMES then { b with active := false } else b
  else b

/-- boss.c `mother_brain_update`, projected to the boss record.  The player's
position only feeds projectile velocities, and camera shake, projectile
spawning and contact damage leave the boss record untouched, so the
projection needs no player input.  Stores into the int16 `hp`/`hp_max`
fields go through `wrap16` (in particular `MB_HP_PHASE3 = 36000` does not
fit in an int16). -/
def mother_brain_update (b : Boss) : Boss :=
  let b := boss_tick_invuln b
  if b.ai_state = MB_TANK_IDLE then
    let b := { b with ai_timer := b.ai_timer + 1 }
    if b.ai_timer ≥ MB_IDLE_FRAMES then
      { b with ai_state := MB_TANK_ATTACK, ai_timer := 0 }
    else b
  else if b.ai_state = MB_TANK_ATTACK then
    let b := { b with sub_timer := b.sub_timer + 1 }
    let b := if b.sub_timer ≥ MB_RINKA_INTERVAL then
               { b with sub_timer := 0, attack_count := b.attack_count + 1 }
             else b
    let b := { b with ai_timer := b.ai_timer + 1 }
    if b.ai_timer ≥ MB_IDLE_FRAMES * 3 then
      { b with ai_state := MB_TANK_IDLE, ai_timer := 0 }
    else b
  else if b.ai_state = MB_TANK_BREAK then
    let b := { b with ai_timer := b.ai_timer + 1 }
    if b.ai_timer ≥ MB_BREAK_FRAMES then
      { b with phase := 1, hp := wrap16 MB_HP_PHASE2, hp_max := wrap16 MB_HP_PHASE2
               ai_state := MB_STAND_IDLE, ai_timer := 0, sub_timer := 0
               attack_count := 0, vulnerable := true }
    else b
  else if b.ai_state = MB_STAND_IDLE then
    let b := { b with ai_timer := b.ai_timer + 1 }
    if b.ai_timer ≥ MB_IDLE_FRAMES then
      let st := if b.ai_counter % 2 = 0 then MB_STAND_BEAM else MB_STAND_BOMB
      { b with ai_state := st, ai_timer := 0, ai_counter := b.ai_counter + 1 }
    else b
  else if b.ai_state = MB_STAND_BEAM then
    let b := { b with ai_timer := b.ai_timer + 1 }
    if b.ai_timer ≥ MB_BEAM_FRAMES then
      { b with ai_state := MB_STAND_IDLE, ai_timer := 0 }
    else b
  else if b.ai_state = MB_STAND_BOMB then
    let b := { b with ai_timer := b.ai_timer + 1 }
    if b.ai_timer ≥ MB_BOMB_FRAMES then
      { b with ai_state := MB_STAND_IDLE, ai_timer := 0 }
    else b
  else if b.ai_state = MB_HYPER_SETUP then
    let b := { b with ai_timer := b.ai_timer + 1 }
    if b.ai_timer ≥ MB_HYPER_SETUP_FRAMES then
      { b with phase := 2, hp := wrap16 MB_HP_PHASE3, hp_max := wrap16 MB_HP_PHASE3
               ai_state := MB_HYPER_BEAM, ai_timer := 0, vulnerable := true }
    else b
  else if b.ai_state = MB_HYPER_BEAM then
    let b := { b with sub_timer := b.sub_timer + 1 }
    if b.sub_timer ≥ 30 then { b with sub_timer := 0 } else b
  else if b.ai_state = MB_DEATH then
    let b := { b with ai_timer := b.ai_timer + 1 }
    if b.ai_timer ≥ MB_DEATH_FRAMES then { b with active := false } else b
  else b

/-! ## Stage views of `physics_update_body` used to state the collision
claims.  `afterStep3` is the body after gravity, acceleration and the
contact-flag clear; `midStep4` is the body after the X move but before the
horizontal resolution; `afterStep4` is the body after the horizontal
resolution; `midStep5` is the body after the Y move but before the vertical
resolution. -/

def afterStep3 (b : PhysicsBody) : PhysicsBody :=
  accel_and_clear (physics_apply_gravity b)

def midStep4 (b : PhysicsBody) : PhysicsBody :=
  { afterStep3 b with pos.x := (afterStep3 b).pos.x + (afterStep3 b).vel.x }

def afterStep4 (r : Room) (b : PhysicsBody) : PhysicsBody :=
  resolve_horizontal r (midStep4 b)

def midStep5 (r : Room) (b : PhysicsBody) : PhysicsBody :=
  { afterStep4 r b with pos.y := (afterStep4 r b).pos.y + (afterStep4 r b).vel.y }

theorem physics_update_body_as_stages (r : Room) (b : PhysicsBody) :
    physics_update_body r b = check_ground_sensor r (resolve_vertical r (midStep5 r b)) := rfl

/-! ## Helper lemmas about the collision resolvers -/

theorem resolve_vertical_land (r : Room) (b : PhysicsBody)
    (h1 : 0 < b.vel.y)
    (h2 : row_has_solid r (fx_to_tile (b.pos.x - b.hitbox.half_w))
            (fx_to_tile (b.pos.x + b.hitbox.half_w - 1))
            (fx_to_tile (b.pos.y + b.hitbox.half_h - 1)) = true) :
    resolve_vertical r b =
      { b with pos.y := INT_TO_FX (fx_to_tile (b.pos.y + b.hitbox.half_h - 1) * TILE_SIZE)
                          - b.hitbox.half_h
               vel.y := 0
               contact.on_ground := true } := by
  simp only [resolve_vertical]
  rw [if_pos h1, if_pos h2]

theorem resolve_horizontal_wall_right (r : Room) (b : PhysicsBody)
    (h1 : 0 < b.vel.x)
    (h2 : col_has_solid r (fx_to_tile (b.pos.x + b.hitbox.half_w - 1))
            (fx_to_tile (b.pos.y - b.hitbox.half_h))
            (fx_to_tile (b.pos.y + b.hitbox.half_h - 1)) = true) :
    resolve_horizontal r b =
      { b with pos.x := INT_TO_FX (fx_to_tile (b.pos.x + b.hitbox.half_w - 1) * TILE_SIZE)
                          - b.hitbox.half_w
               vel.x := 0
               contact.on_wall_right := true } := by
  simp only [resolve_horizontal]
  rw [if_pos h1, if_pos h2]

theorem resolve_horizontal_wall_left (r : Room) (b : PhysicsBody)
    (h1 : b.vel.x < 0)
    (h2 : col_has_solid r (fx_to_tile (b.pos.x - b.hitbox.half_w))
            (fx_to_tile (b.pos.y - b.hitbox.half_h))
            (fx_to_tile (b.pos.y + b.hitbox.half_h - 1)) = true) :
    resolve_horizontal r b =
      { b with pos.x := INT_TO_FX ((fx_to_tile (b.pos.x - b.hitbox.half_w) + 1) * TILE_SIZE)
                          + b.hitbox.half_w
               vel.x := 0
               contact.on_wall_left := true } := by
  simp only [resolve_horizontal]
  rw [if_neg (by omega : ¬ 0 < b.vel.x), if_pos h1, if_pos h2]

theorem resolve_vertical_keeps_x (r : Room) (b : PhysicsBody) :
    (resolve_vertical r b).pos.x = b.pos.x ∧
    (resolve_vertical r b).vel.x = b.vel.x ∧
    (resolve_vertical r b).contact.on_wall_left = b.contact.on_wall_left ∧
    (resolve_vertical r b).contact.on_wall_right = b.contact.on_wall_right ∧
    (resolve_vertical r b).hitbox = b.hitbox := by
  simp only [resolve_vertical]
  split_ifs <;> exact ⟨rfl, rfl, rfl, rfl, rfl⟩

theorem check_ground_sensor_keeps (r : Room) (b : PhysicsBody) :
    (check_ground_sensor r b).pos = b.pos ∧
    (check_ground_sensor r b).vel = b.vel ∧
    (check_ground_sensor r b).contact.on_wall_left = b.contact.on_wall_left ∧
    (check_ground_sensor r b).contact.on_wall_right = b.contact.on_wall_right ∧
    (check_ground_sensor r b).hitbox = b.hitbox := by
  simp only [check_ground_sensor]
  split_ifs <;> exact ⟨rfl, rfl, rfl, rfl, rfl⟩

theorem check_ground_sensor_of_on_ground (r : Room) (b : PhysicsBody)
    (h : b.contact.on_ground = true) : check_ground_sensor r b = b := by
  simp only [check_ground_sensor]
  rw [if_pos h]

/-! ## Claim C9 -/

/-- C9: every out-of-range tile coordinate (negative, or at least the room's
width/height in tiles) makes `room_get_collision` answer the solid tile
type. -/
theorem C9_out_of_range_collision_is_solid (r : Room) (tile_x tile_y : Int)
    (h : tile_x < 0 ∨ tile_x ≥ r.width_tiles ∨ tile_y < 0 ∨ tile_y ≥ r.height_tiles) :
    room_get_collision r tile_x tile_y = COLL_SOLID := by
  unfold room_get_collision
  split_ifs <;> first | rfl | omega

/-- Witness for C9: a loaded 2×2 room queried at (−1, 0) and at (2, 5). -/
theorem C9_out_of_range_collision_is_solid_witness :
    ((-1 : Int) < 0 ∨ (-1 : Int) ≥ (2 : Int) ∨ (0 : Int) < 0 ∨ (0 : Int) ≥ (2 : Int)) ∧
    room_get_collision ⟨true, 2, 2, [0, 0, 0, 0]⟩ (-1) 0 = COLL_SOLID ∧
    room_get_collision ⟨true, 2, 2, [0, 0, 0, 0]⟩ 2 5 = COLL_SOLID := by
  refine ⟨by decide, ?_, ?_⟩
  · exact C9_out_of_range_collision_is_solid ⟨true, 2, 2, [0, 0, 0, 0]⟩ (-1) 0 (by decide)
  · exact C9_out_of_range_collision_is_solid ⟨true, 2, 2, [0, 0, 0, 0]⟩ 2 5 (by decide)

/-! ## Claim C10 -/

/-- C10: `boss_spawn` with the none sentinel or an out-of-range boss type id
returns with the boss singleton exactly as it was — every field unchanged. -/
theorem C10_boss_spawn_invalid_type_no_mutation (g : Boss) (type : Nat) (x y : Int)
    (h : type = BOSS_NONE ∨ type ≥ BOSS_TYPE_COUNT) :
    boss_spawn type x y g = g := by
  unfold boss_spawn
  rw [if_pos h]

/-- Witness for C10: spawning type 0 and type 11 onto an active Kraid boss
changes nothing. -/
theorem C10_boss_spawn_invalid_type_no_mutation_witness :
    ((0 : Nat) = BOSS_NONE ∨ (0 : Nat) ≥ BOSS_TYPE_COUNT) ∧
    ((11 : Nat) = BOSS_NONE ∨ (11 : Nat) ≥ BOSS_TYPE_COUNT) ∧
    boss_spawn 0 (INT_TO_FX 50) (INT_TO_FX 60)
      (boss_spawn BOSS_KRAID (INT_TO_FX 10) (INT_TO_FX 20) zeroBoss)
      = boss_spawn BOSS_KRAID (INT_TO_FX 10) (INT_TO_FX 20) zeroBoss ∧
    boss_spawn 11 (INT_TO_FX 50) (INT_TO_FX 60)
      (boss_spawn BOSS_KRAID (INT_TO_FX 10) (INT_TO_FX 20) zeroBoss)
      = boss_spawn BOSS_KRAID (INT_TO_FX 10) (INT_TO_FX 20) zeroBoss := by
  refine ⟨by decide, by decide, ?_, ?_⟩
  · exact C10_boss_spawn_invalid_type_no_mutation _ 0 _ _ (by decide)
  · exact C10_boss_spawn_invalid_type_no_mutation _ 11 _ _ (by decide)

/-! ## Claim C5 -/

/-- Scalar view of the air-environment gravity step on vel.y (proof helper). -/
def airGravStep (v : Int) : Int :=
  let vy := v + GRAVITY_AIR
  if vy > TERMINAL_VEL_AIR then TERMINAL_VEL_AIR else vy

theorem physics_apply_gravity_air (b : PhysicsBody) (h : b.env = ENV_AIR) :
    physics_apply_gravity b = { b with vel.y := airGravStep b.vel.y } := by
  simp only [physics_apply_gravity, airGravStep, h]
  norm_num [ENV_AIR, ENV_WATER, ENV_LAVA]

theorem physics_apply_gravity_iter_air (b : PhysicsBody) (h : b.env = ENV_AIR) :
    ∀ n : Nat, (physics_apply_gravity^[n] b).vel.y = airGravStep^[n] b.vel.y ∧
      (physics_apply_gravity^[n] b).env = ENV_AIR := by
  intro n
  induction n with
  | zero => exact ⟨rfl, h⟩
  | succ n ih =>
    rw [Function.iterate_succ_apply', Function.iterate_succ_apply',
        physics_apply_gravity_air _ ih.2]
    exact ⟨by rw [ih.1], ih.2⟩

/-- C5: under per-frame air gravity 0x125C with downward clamp 0x50000, a
body starting from vel.y = 0 first holds the air terminal velocity at frame
70 (strictly below it on every earlier frame), and a body starting from the
normal jump launch velocity −0x49000 first has vel.y ≥ 0 at frame 64
(strictly negative on every earlier frame) — both within the claimed ±1. -/
theorem C5_air_gravity_frame_counts (b bj : PhysicsBody)
    (hb : b.env = ENV_AIR) (hb0 : b.vel.y = 0)
    (hj : bj.env = ENV_AIR) (hj0 : bj.vel.y = -JUMP_VEL_NORMAL) :
    ((physics_apply_gravity^[70] b).vel.y = TERMINAL_VEL_AIR ∧
      ∀ k < 70, (physics_apply_gravity^[k] b).vel.y < TERMINAL_VEL_AIR) ∧
    (0 ≤ (physics_apply_gravity^[64] bj).vel.y ∧
      ∀ k < 64, (physics_apply_gravity^[k] bj).vel.y < 0) := by
  refine ⟨⟨?_, ?_⟩, ?_, ?_⟩
  · rw [(physics_apply_gravity_iter_air b hb 70).1, hb0]
    decide
  · intro k hk
    rw [(physics_apply_gravity_iter_air b hb k).1, hb0]
    revert hk
    revert k
    decide
  · rw [(physics_apply_gravity_iter_air bj hj 64).1, hj0]
    decide
  · intro k hk
    rw [(physics_apply_gravity_iter_air bj hj k).1, hj0]
    revert hk
    revert k
    decide

/-- Witness for C5: a concrete airborne body at rest and a concrete body at
jump launch velocity. -/
theorem C5_air_gravity_frame_counts_witness :
    ((zeroBody.env = ENV_AIR ∧ zeroBody.vel.y = 0) ∧
     ({ zeroBody with vel.y := -JUMP_VEL_NORMAL }.env = ENV_AIR ∧
      { zeroBody with vel.y := -JUMP_VEL_NORMAL }.vel.y = -JUMP_VEL_NORMAL)) ∧
    ((physics_apply_gravity^[70] zeroBody).vel.y = TERMINAL_VEL_AIR ∧
      ∀ k < 70, (physics_apply_gravity^[k] zeroBody).vel.y < TERMINAL_VEL_AIR) ∧
    (0 ≤ (physics_apply_gravity^[64] { zeroBody with vel.y := -JUMP_VEL_NORMAL }).vel.y ∧
      ∀ k < 64,
        (physics_apply_gravity^[k] { zeroBody with vel.y := -JUMP_VEL_NORMAL }).vel.y < 0) :=
  ⟨⟨⟨rfl, rfl⟩, ⟨rfl, rfl⟩⟩,
   C5_air_gravity_frame_counts zeroBody { zeroBody with vel.y := -JUMP_VEL_NORMAL }
     rfl rfl rfl rfl⟩

/-! ## Claim C2 -/

/-- C2: within `physics_update_body`, (i) if after the Y move the bottom edge
of the hitbox lies in a tile row containing a solid tile while moving down,
the final body has its bottom edge exactly on that tile row's top boundary,
vel.y = 0, and the on-ground flag set; (ii) if after the X move the right
(resp. left) edge lies in a tile column containing a solid tile while moving
right (resp. left), the final body has that edge exactly on the tile
boundary, vel.x = 0, and the matching wall flag set. -/
theorem C2_collision_snap_and_zero (r : Room) (b : PhysicsBody) :
    (0 < (midStep5 r b).vel.y →
      row_has_solid r (fx_to_tile ((midStep5 r b).pos.x - (midStep5 r b).hitbox.half_w))
          (fx_to_tile ((midStep5 r b).pos.x + (midStep5 r b).hitbox.half_w - 1))
          (fx_to_tile ((midStep5 r b).pos.y + (midStep5 r b).hitbox.half_h - 1)) = true →
      (physics_update_body r b).pos.y + (physics_update_body r b).hitbox.half_h
          = INT_TO_FX (fx_to_tile ((midStep5 r b).pos.y + (midStep5 r b).hitbox.half_h - 1)
              * TILE_SIZE) ∧
      (physics_update_body r b).vel.y = 0 ∧
      (physics_update_body r b).contact.on_ground = true) ∧
    (0 < (midStep4 b).vel.x →
      col_has_solid r (fx_to_tile ((midStep4 b).pos.x + (midStep4 b).hitbox.half_w - 1))
          (fx_to_tile ((midStep4 b).pos.y - (midStep4 b).hitbox.half_h))
          (fx_to_tile ((midStep4 b).pos.y + (midStep4 b).hitbox.half_h - 1)) = true →
      (physics_update_body r b).pos.x + (physics_update_body r b).hitbox.half_w
          = INT_TO_FX (fx_to_tile ((midStep4 b).pos.x + (midStep4 b).hitbox.half_w - 1)
              * TILE_SIZE) ∧
      (physics_update_body r b).vel.x = 0 ∧
      (physics_update_body r b).contact.on_wall_right = true) ∧
    ((midStep4 b).vel.x < 0 →
      col_has_solid r (fx_to_tile ((midStep4 b).pos.x - (midStep4 b).hitbox.half_w))
          (fx_to_tile ((midStep4 b).pos.y - (midStep4 b).hitbox.half_h))
          (fx_to_tile ((midStep4 b).pos.y + (midStep4 b).hitbox.half_h - 1)) = true →
      (physics_update_body r b).pos.x - (physics_update_body r b).hitbox.half_w
          = INT_TO_FX ((fx_to_tile ((midStep4 b).pos.x - (midStep4 b).hitbox.half_w) + 1)
              * TILE_SIZE) ∧
      (physics_update_body r b).vel.x = 0 ∧
      (physics_update_body r b).contact.on_wall_left = true) := by
  refine ⟨?_, ?_, ?_⟩
  · intro h1 h2
    rw [physics_update_body_as_stages, resolve_vertical_land r _ h1 h2,
        check_ground_sensor_of_on_ground _ _ rfl]
    exact ⟨by dsimp only; omega, rfl, rfl⟩
  · intro h1 h2
    have hsnap := resolve_horizontal_wall_right r (midStep4 b) h1 h2
    have hx := check_ground_sensor_keeps r (resolve_vertical r (midStep5 r b))
    have hv := resolve_vertical_keeps_x r (midStep5 r b)
    rw [physics_update_body_as_stages]
    have e1 : (midStep5 r b).pos.x = (afterStep4 r b).pos.x := rfl
    have e2 : (midStep5 r b).vel.x = (afterStep4 r b).vel.x := rfl
    have e3 : (midStep5 r b).contact.on_wall_right
        = (afterStep4 r b).contact.on_wall_right := rfl
    have e4 : (midStep5 r b).hitbox = (afterStep4 r b).hitbox := rfl
    have e5 : afterStep4 r b = resolve_horizontal r (midStep4 b) := rfl
    refine ⟨?_, ?_, ?_⟩
    · rw [show (check_ground_sensor r (resolve_vertical r (midStep5 r b))).pos.x
            = (midStep5 r b).pos.x by rw [congrArg Vec2fx.x hx.1, hv.1],
          show (check_ground_sensor r (resolve_vertical r (midStep5 r b))).hitbox
            = (midStep5 r b).hitbox by rw [hx.2.2.2.2, hv.2.2.2.2],
          e1, e4, e5, hsnap]
      dsimp only
      omega
    · rw [show (check_ground_sensor r (resolve_vertical r (midStep5 r b))).vel.x
            = (midStep5 r b).vel.x by rw [congrArg Vec2fx.x hx.2.1, hv.2.1],
          e2, e5, hsnap]
    · rw [hx.2.2.2.1, hv.2.2.2.1, e3, e5, hsnap]
  · intro h1 h2
    have hsnap := resolve_horizontal_wall_left r (midStep4 b) h1 h2
    have hx := check_ground_sensor_keeps r (resolve_vertical r (midStep5 r b))
    have hv := resolve_vertical_keeps_x r (midStep5 r b)
    rw [physics_update_body_as_stages]
    have e1 : (midStep5 r b).pos.x = (afterStep4 r b).pos.x := rfl
    have e2 : (midStep5 r b).vel.x = (afterStep4 r b).vel.x := rfl
    have e3 : (midStep5 r b).contact.on_wall_left
        = (afterStep4 r b).contact.on_wall_left := rfl
    have e4 : (midStep5 r b).hitbox = (afterStep4 r b).hitbox := rfl
    have e5 : afterStep4 r b = resolve_horizontal r (midStep4 b) := rfl
    refine ⟨?_, ?_, ?_⟩
    · rw [show (check_ground_sensor r (resolve_vertical r (midStep5 r b))).pos.x
            = (midStep5 r b).pos.x by rw [congrArg Vec2fx.x hx.1, hv.1],
          show (check_ground_sensor r (resolve_vertical r (midStep5 r b))).hitbox
            = (midStep5 r b).hitbox by rw [hx.2.2.2.2, hv.2.2.2.2],
          e1, e4, e5, hsnap]
      dsimp only
      omega
    · rw [show (check_ground_sensor r (resolve_vertical r (midStep5 r b))).vel.x
            = (midStep5 r b).vel.x by rw [congrArg Vec2fx.x hx.2.1, hv.2.1],
          e2, e5, hsnap]
    · rw [hx.2.2.1, hv.2.2.1, e3, e5, hsnap]

/-- A 6×6 test room: solid floor on tile row 4, solid wall segments in tile
columns 1 and 4 on rows 1–3. -/
def c2Room : Room :=
  ⟨true, 6, 6,
   [0, 0, 0, 0, 0, 0,
    0, 1, 0, 0, 1, 0,
    0, 1, 0, 0, 1, 0,
    0, 1, 0, 0, 1, 0,
    1, 1, 1, 1, 1, 1,
    0, 0, 0, 0, 0, 0]⟩

/-- Test body moving down-right into the floor/wall corner. -/
def c2BodyDR : PhysicsBody :=
  { pos := ⟨INT_TO_FX 63, INT_TO_FX 60⟩, vel := ⟨INT_TO_FX 2, INT_TO_FX 2⟩
    accel := zeroVec, hitbox := ⟨INT_TO_FX 2, INT_TO_FX 2⟩
    contact := clearedContact, env := ENV_AIR }

/-- Test body moving left into the wall in tile column 1. -/
def c2BodyL : PhysicsBody :=
  { pos := ⟨INT_TO_FX 34, INT_TO_FX 30⟩, vel := ⟨-(INT_TO_FX 2), 0⟩
    accel := zeroVec, hitbox := ⟨INT_TO_FX 2, INT_TO_FX 2⟩
    contact := clearedContact, env := ENV_AIR }

/-- Witness for C2: the down-right body lands on the floor and hits the right
wall in one `physics_update_body` frame; the left-moving body hits the left
wall. -/
theorem C2_collision_snap_and_zero_witness :
    (0 < (midStep5 c2Room c2BodyDR).vel.y ∧
      row_has_solid c2Room
        (fx_to_tile ((midStep5 c2Room c2BodyDR).pos.x - (midStep5 c2Room c2BodyDR).hitbox.half_w))
        (fx_to_tile ((midStep5 c2Room c2BodyDR).pos.x + (midStep5 c2Room c2BodyDR).hitbox.half_w - 1))
        (fx_to_tile ((midStep5 c2Room c2BodyDR).pos.y + (midStep5 c2Room c2BodyDR).hitbox.half_h - 1))
        = true) ∧
    ((physics_update_body c2Room c2BodyDR).pos.y
        + (physics_update_body c2Room c2BodyDR).hitbox.half_h
        = INT_TO_FX (fx_to_tile ((midStep5 c2Room c2BodyDR).pos.y
            + (midStep5 c2Room c2BodyDR).hitbox.half_h - 1) * TILE_SIZE) ∧
      (physics_update_body c2Room c2BodyDR).vel.y = 0 ∧
      (physics_update_body c2Room c2BodyDR).contact.on_ground = true) ∧
    ((physics_update_body c2Room c2BodyDR).pos.x
        + (physics_update_body c2Room c2BodyDR).hitbox.half_w
        = INT_TO_FX (fx_to_tile ((midStep4 c2BodyDR).pos.x
            + (midStep4 c2BodyDR).hitbox.half_w - 1) * TILE_SIZE) ∧
      (physics_update_body c2Room c2BodyDR).vel.x = 0 ∧
      (physics_update_body c2Room c2BodyDR).contact.on_wall_right = true) ∧
    ((physics_update_body c2Room c2BodyL).pos.x
        - (physics_update_body c2Room c2BodyL).hitbox.half_w
        = INT_TO_FX ((fx_to_tile ((midStep4 c2BodyL).pos.x
            - (midStep4 c2BodyL).hitbox.half_w) + 1) * TILE_SIZE) ∧
      (physics_update_body c2Room c2BodyL).vel.x = 0 ∧
      (physics_update_body c2Room c2BodyL).contact.on_wall_left = true) :=
  ⟨⟨by decide, by decide⟩,
   (C2_collision_snap_and_zero c2Room c2BodyDR).1 (by decide) (by decide),
   (C2_collision_snap_and_zero c2Room c2BodyDR).2.1 (by decide) (by decide),
   (C2_collision_snap_and_zero c2Room c2BodyL).2.2 (by decide) (by decide)⟩

/-! ## List helper lemmas for the pool proofs -/

theorem getD_set_self {α : Type} :
    ∀ (l : List α) (i : Nat) (a d : α), i < l.length → (l.set i a).getD i d = a
  | [], i, _, _, h => absurd h (by simp)
  | _ :: _, 0, _, _, _ => rfl
  | _ :: xs, i + 1, a, d, h =>
    getD_set_self xs i a d (by simpa using h)

theorem getD_set_ne {α : Type} :
    ∀ (l : List α) (i j : Nat) (a d : α), i ≠ j → (l.set i a).getD j d = l.getD j d
  | [], _, _, _, _, _ => rfl
  | _ :: _, 0, 0, _, _, h => absurd rfl h
  | _ :: _, 0, _ + 1, _, _, _ => rfl
  | _ :: _, _ + 1, 0, _, _, _ => rfl
  | _ :: xs, i + 1, j + 1, a, d, h =>
    getD_set_ne xs i j a d (by omega)

/-! ## Claim C3 -/

/-- C3: for both pools, spawning with the none sentinel, an out-of-range type
id, or a full pool returns −1 and mutates nothing; otherwise the slot at
`active_count` is initialized from the per-type definition table, every other
slot is untouched, the count is incremented and that index is returned; and a
valid spawn right after `clear_all` returns index 0. -/
theorem C3_pool_spawn_contract :
    (∀ (p : EnemyPool) (t : Nat) (x y : Int),
      ((t = ENEMY_NONE ∨ t ≥ ENEMY_TYPE_COUNT) → enemy_spawn t x y p = (-1, p)) ∧
      (p.active_count ≥ MAX_ENEMIES → enemy_spawn t x y p = (-1, p)) ∧
      (t ≠ ENEMY_NONE → t < ENEMY_TYPE_COUNT → p.active_count < MAX_ENEMIES →
        p.slots.length = MAX_ENEMIES →
        (enemy_spawn t x y p).1 = (p.active_count : Int) ∧
        (enemy_spawn t x y p).2.active_count = p.active_count + 1 ∧
        ((enemy_spawn t x y p).2.slots.getD p.active_count zeroEnemy).type = t ∧
        ((enemy_spawn t x y p).2.slots.getD p.active_count zeroEnemy).active = true ∧
        ((enemy_spawn t x y p).2.slots.getD p.active_count zeroEnemy).hp = (enemy_defs t).hp ∧
        ((enemy_spawn t x y p).2.slots.getD p.active_count zeroEnemy).hp_max = (enemy_defs t).hp ∧
        ((enemy_spawn t x y p).2.slots.getD p.active_count zeroEnemy).damage_contact
            = (enemy_defs t).damage ∧
        ((enemy_spawn t x y p).2.slots.getD p.active_count zeroEnemy).body.pos = ⟨x, y⟩ ∧
        ((enemy_spawn t x y p).2.slots.getD p.active_count zeroEnemy).body.hitbox
            = ⟨(enemy_defs t).half_w, (enemy_defs t).half_h⟩ ∧
        ∀ j : Nat, j ≠ p.active_count →
          (enemy_spawn t x y p).2.slots.getD j zeroEnemy = p.slots.getD j zeroEnemy) ∧
      (t ≠ ENEMY_NONE → t < ENEMY_TYPE_COUNT →
        (enemy_spawn t x y (enemy_clear_all p)).1 = 0)) ∧
    (∀ (q : ProjectilePool) (t o : Nat) (x y vx vy : Int),
      ((t = PROJ_NONE ∨ t ≥ PROJ_TYPE_COUNT) → projectile_spawn t o x y vx vy q = (-1, q)) ∧
      (q.active_count ≥ MAX_PROJECTILES → projectile_spawn t o x y vx vy q = (-1, q)) ∧
      (t ≠ PROJ_NONE → t < PROJ_TYPE_COUNT → q.active_count < MAX_PROJECTILES →
        q.slots.length = MAX_PROJECTILES →
        (projectile_spawn t o x y vx vy q).1 = (q.active_count : Int) ∧
        (projectile_spawn t o x y vx vy q).2.active_count = q.active_count + 1 ∧
        ((projectile_spawn t o x y vx vy q).2.slots.getD q.active_count zeroProjectile).type = t ∧
        ((projectile_spawn t o x y vx vy q).2.slots.getD q.active_count zeroProjectile).owner = o ∧
        ((projectile_spawn t o x y vx vy q).2.slots.getD q.active_count zeroProjectile).active
            = true ∧
        ((projectile_spawn t o x y vx vy q).2.slots.getD q.active_count zeroProjectile).damage
            = (proj_defs t).damage ∧
        ((projectile_spawn t o x y vx vy q).2.slots.getD q.active_count zeroProjectile).lifetime
            = (proj_defs t).lifetime ∧
        ((projectile_spawn t o x y vx vy q).2.slots.getD q.active_count zeroProjectile).hitbox
            = ⟨(proj_defs t).half_w, (proj_defs t).half_h⟩ ∧
        ((projectile_spawn t o x y vx vy q).2.slots.getD q.active_count zeroProjectile).pos
            = ⟨x, y⟩ ∧
        ((projectile_spawn t o x y vx vy q).2.slots.getD q.active_count zeroProjectile).vel
            = ⟨vx, vy⟩ ∧
        ∀ j : Nat, j ≠ q.active_count →
          (projectile_spawn t o x y vx vy q).2.slots.getD j zeroProjectile
            = q.slots.getD j zeroProjectile) ∧
      (t ≠ PROJ_NONE → t < PROJ_TYPE_COUNT →
        (projectile_spawn t o x y vx vy (projectile_clear_all q)).1 = 0)) := by
  constructor
  · intro p t x y
    refine ⟨fun h => ?_, fun h => ?_, fun h1 h2 h3 h4 => ?_, fun h1 h2 => ?_⟩
    · unfold enemy_spawn
      rw [if_pos h]
    · unfold enemy_spawn
      split_ifs <;> rfl
    · unfold enemy_spawn
      rw [if_neg (by omega), if_neg (by omega)]
      refine ⟨rfl, rfl, ?_⟩
      rw [show ((p.active_count : Int), ({ slots := _, active_count := _ } : EnemyPool)).2.slots
            = p.slots.set p.active_count _ from rfl]
      rw [getD_set_self _ _ _ _ (by omega)]
      refine ⟨rfl, rfl, rfl, rfl, rfl, rfl, rfl, fun j hj => ?_⟩
      exact getD_set_ne _ _ _ _ _ (by omega)
    · unfold enemy_spawn
      rw [if_neg (by omega)]
      simp [enemy_clear_all, MAX_ENEMIES]
  · intro q t o x y vx vy
    refine ⟨fun h => ?_, fun h => ?_, fun h1 h2 h3 h4 => ?_, fun h1 h2 => ?_⟩
    · unfold projectile_spawn
      rw [if_pos h]
    · unfold projectile_spawn
      split_ifs <;> rfl
    · unfold projectile_spawn
      rw [if_neg (by omega), if_neg (by omega)]
      refine ⟨rfl, rfl, ?_⟩
      rw [show ((q.active_count : Int), ({ slots := _, active_count := _ } : ProjectilePool)).2.slots
            = q.slots.set q.active_count _ from rfl]
      rw [getD_set_self _ _ _ _ (by omega)]
      refine ⟨rfl, rfl, rfl, rfl, rfl, rfl, rfl, rfl, fun j hj => ?_⟩
      exact getD_set_ne _ _ _ _ _ (by omega)
    · unfold projectile_spawn
      rw [if_neg (by omega)]
      simp [projectile_clear_all, MAX_PROJECTILES]

/-- An empty enemy pool (the state after `enemy_pool_init`/`enemy_clear_all`). -/
def c3EnemyPool : EnemyPool := ⟨List.replicate 16 zeroEnemy, 0⟩

/-- An enemy pool at capacity. -/
def c3FullEnemyPool : EnemyPool := ⟨List.replicate 16 zeroEnemy, 16⟩

/-- An empty projectile pool. -/
def c3ProjPool : ProjectilePool := ⟨List.replicate 32 zeroProjectile, 0⟩

/-- A projectile pool at capacity. -/
def c3FullProjPool : ProjectilePool := ⟨List.replicate 32 zeroProjectile, 32⟩

/-- Witness for C3: concrete spawns on empty and full pools of both kinds. -/
theorem C3_pool_spawn_contract_witness :
    enemy_spawn 0 (INT_TO_FX 5) (INT_TO_FX 6) c3EnemyPool = (-1, c3EnemyPool) ∧
    enemy_spawn 1 (INT_TO_FX 5) (INT_TO_FX 6) c3FullEnemyPool = (-1, c3FullEnemyPool) ∧
    (enemy_spawn 1 (INT_TO_FX 5) (INT_TO_FX 6) c3EnemyPool).1 = (c3EnemyPool.active_count : Int) ∧
    (enemy_spawn 1 (INT_TO_FX 5) (INT_TO_FX 6) c3EnemyPool).2.active_count
        = c3EnemyPool.active_count + 1 ∧
    ((enemy_spawn 1 (INT_TO_FX 5) (INT_TO_FX 6) c3EnemyPool).2.slots.getD
        c3EnemyPool.active_count zeroEnemy).hp = (enemy_defs 1).hp ∧
    (enemy_spawn 1 (INT_TO_FX 5) (INT_TO_FX 6) c3EnemyPool).2.slots.getD 3 zeroEnemy
        = c3EnemyPool.slots.getD 3 zeroEnemy ∧
    (enemy_spawn 1 (INT_TO_FX 5) (INT_TO_FX 6) (enemy_clear_all c3FullEnemyPool)).1 = 0 ∧
    projectile_spawn 0 0 (INT_TO_FX 5) (INT_TO_FX 6) 0 0 c3ProjPool = (-1, c3ProjPool) ∧
    projectile_spawn 6 0 (INT_TO_FX 5) (INT_TO_FX 6) 0 0 c3FullProjPool = (-1, c3FullProjPool) ∧
    (projectile_spawn 6 0 (INT_TO_FX 5) (INT_TO_FX 6) 0 0 c3ProjPool).1
        = (c3ProjPool.active_count : Int) ∧
    (projectile_spawn 6 0 (INT_TO_FX 5) (INT_TO_FX 6) 0 0 c3ProjPool).2.active_count
        = c3ProjPool.active_count + 1 ∧
    ((projectile_spawn 6 0 (INT_TO_FX 5) (INT_TO_FX 6) 0 0 c3ProjPool).2.slots.getD
        c3ProjPool.active_count zeroProjectile).damage = (proj_defs 6).damage ∧
    (projectile_spawn 6 0 (INT_TO_FX 5) (INT_TO_FX 6) 0 0
        (projectile_clear_all c3FullProjPool)).1 = 0 :=
  ⟨(C3_pool_spawn_contract.1 c3EnemyPool 0 (INT_TO_FX 5) (INT_TO_FX 6)).1 (by decide),
   (C3_pool_spawn_contract.1 c3FullEnemyPool 1 (INT_TO_FX 5) (INT_TO_FX 6)).2.1 (by decide),
   ((C3_pool_spawn_contract.1 c3EnemyPool 1 (INT_TO_FX 5) (INT_TO_FX 6)).2.2.1
      (by decide) (by decide) (by decide) (by decide)).1,
   ((C3_pool_spawn_contract.1 c3EnemyPool 1 (INT_TO_FX 5) (INT_TO_FX 6)).2.2.1
      (by decide) (by decide) (by decide) (by decide)).2.1,
   ((C3_pool_spawn_contract.1 c3EnemyPool 1 (INT_TO_FX 5) (INT_TO_FX 6)).2.2.1
      (by decide) (by decide) (by decide) (by decide)).2.2.2.2.1,
   ((C3_pool_spawn_contract.1 c3EnemyPool 1 (INT_TO_FX 5) (INT_TO_FX 6)).2.2.1
      (by decide) (by decide) (by decide) (by decide)).2.2.2.2.2.2.2.2.2 3 (by decide),
   (C3_pool_spawn_contract.1 c3FullEnemyPool 1 (INT_TO_FX 5) (INT_TO_FX 6)).2.2.2
      (by decide) (by decide),
   (C3_pool_spawn_contract.2 c3ProjPool 0 0 (INT_TO_FX 5) (INT_TO_FX 6) 0 0).1 (by decide),
   (C3_pool_spawn_contract.2 c3FullProjPool 6 0 (INT_TO_FX 5) (INT_TO_FX 6) 0 0).2.1 (by decide),
   ((C3_pool_spawn_contract.2 c3ProjPool 6 0 (INT_TO_FX 5) (INT_TO_FX 6) 0 0).2.2.1
      (by decide) (by decide) (by decide) (by decide)).1,
   ((C3_pool_spawn_contract.2 c3ProjPool 6 0 (INT_TO_FX 5) (INT_TO_FX 6) 0 0).2.2.1
      (by decide) (by decide) (by decide) (by decide)).2.1,
   ((C3_pool_spawn_contract.2 c3ProjPool 6 0 (INT_TO_FX 5) (INT_TO_FX 6) 0 0).2.2.1
      (by decide) (by decide) (by decide) (by decide)).2.2.2.2.2.1,
   (C3_pool_spawn_contract.2 c3FullProjPool 6 0 (INT_TO_FX 5) (INT_TO_FX 6) 0 0).2.2.2
      (by decide) (by decide)⟩

/-! ## Claim C4 -/

/-- C4: for both pools, `remove(index)` with a valid index copies the last
active slot into `index` (unless `index` is the last active slot), decrements
`active_count`, and zeroes the vacated tail slot; an out-of-range index
changes nothing. -/
theorem C4_pool_remove_swap :
    (∀ (p : EnemyPool) (index : Int),
      ((index < 0 ∨ index ≥ (p.active_count : Int)) → enemy_remove index p = p) ∧
      (0 ≤ index → index < (p.active_count : Int) →
        p.active_count ≤ MAX_ENEMIES → p.slots.length = MAX_ENEMIES →
        (enemy_remove index p).active_count = p.active_count - 1 ∧
        (index < (p.active_count : Int) - 1 →
          (enemy_remove index p).slots.getD index.toNat zeroEnemy
            = p.slots.getD (p.active_count - 1) zeroEnemy) ∧
        (enemy_remove index p).slots.getD (p.active_count - 1) zeroEnemy = zeroEnemy)) ∧
    (∀ (q : ProjectilePool) (index : Int),
      ((index < 0 ∨ index ≥ (q.active_count : Int)) → projectile_remove index q = q) ∧
      (0 ≤ index → index < (q.active_count : Int) →
        q.active_count ≤ MAX_PROJECTILES → q.slots.length = MAX_PROJECTILES →
        (projectile_remove index q).active_count = q.active_count - 1 ∧
        (index < (q.active_count : Int) - 1 →
          (projectile_remove index q).slots.getD index.toNat zeroProjectile
            = q.slots.getD (q.active_count - 1) zeroProjectile) ∧
        (projectile_remove index q).slots.getD (q.active_count - 1) zeroProjectile
          = zeroProjectile)) := by
  constructor
  · intro p index
    refine ⟨fun h => ?_, fun h0 h1 h2 h3 => ?_⟩
    · unfold enemy_remove
      rw [if_pos h]
    · unfold enemy_remove
      rw [if_neg (by omega)]
      dsimp only
      split_ifs with hc
      · refine ⟨rfl, fun hlt => ?_, ?_⟩
        · rw [getD_set_ne _ _ _ _ _ (by omega),
              getD_set_self _ _ _ _ (by omega)]
        · rw [getD_set_self _ _ _ _ (by simp only [List.length_set]; omega)]
      · refine ⟨rfl, fun hlt => absurd hlt (by omega), ?_⟩
        rw [getD_set_self _ _ _ _ (by omega)]
  · intro q index
    refine ⟨fun h => ?_, fun h0 h1 h2 h3 => ?_⟩
    · unfold projectile_remove
      rw [if_pos h]
    · unfold projectile_remove
      rw [if_neg (by omega)]
      dsimp only
      split_ifs with hc
      · refine ⟨rfl, fun hlt => ?_, ?_⟩
        · rw [getD_set_ne _ _ _ _ _ (by omega),
              getD_set_self _ _ _ _ (by omega)]
        · rw [getD_set_self _ _ _ _ (by simp only [List.length_set]; omega)]
      · refine ⟨rfl, fun hlt => absurd hlt (by omega), ?_⟩
        rw [getD_set_self _ _ _ _ (by omega)]

/-- A 3-enemy pool with distinguishable slots (hp 101, 102, 103). -/
def c4EnemyPool : EnemyPool :=
  ⟨{ zeroEnemy with hp := 101 } :: { zeroEnemy with hp := 102 } ::
     { zeroEnemy with hp := 103 } :: List.replicate 13 zeroEnemy, 3⟩

/-- A 3-projectile pool with distinguishable slots (damage 11, 12, 13). -/
def c4ProjPool : ProjectilePool :=
  ⟨{ zeroProjectile with damage := 11 } :: { zeroProjectile with damage := 12 } ::
     { zeroProjectile with damage := 13 } :: List.replicate 29 zeroProjectile, 3⟩

/-- Witness for C4: removing index 0 from concrete 3-element pools copies the
last slot into index 0, decrements the count, and zeroes slot 2; index −1 and
index 5 change nothing. -/
theorem C4_pool_remove_swap_witness :
    enemy_remove (-1) c4EnemyPool = c4EnemyPool ∧
    enemy_remove 5 c4EnemyPool = c4EnemyPool ∧
    (enemy_remove 0 c4EnemyPool).active_count = 2 ∧
    (enemy_remove 0 c4EnemyPool).slots.getD 0 zeroEnemy
      = c4EnemyPool.slots.getD 2 zeroEnemy ∧
    (enemy_remove 0 c4EnemyPool).slots.getD 2 zeroEnemy = zeroEnemy ∧
    projectile_remove (-1) c4ProjPool = c4ProjPool ∧
    projectile_remove 5 c4ProjPool = c4ProjPool ∧
    (projectile_remove 0 c4ProjPool).active_count = 2 ∧
    (projectile_remove 0 c4ProjPool).slots.getD 0 zeroProjectile
      = c4ProjPool.slots.getD 2 zeroProjectile ∧
    (projectile_remove 0 c4ProjPool).slots.getD 2 zeroProjectile = zeroProjectile :=
  ⟨(C4_pool_remove_swap.1 c4EnemyPool (-1)).1 (by decide),
   (C4_pool_remove_swap.1 c4EnemyPool 5).1 (by decide),
   ((C4_pool_remove_swap.1 c4EnemyPool 0).2 (by decide) (by decide) (by decide) (by decide)).1,
   ((C4_pool_remove_swap.1 c4EnemyPool 0).2 (by decide) (by decide) (by decide)
      (by decide)).2.1 (by decide),
   ((C4_pool_remove_swap.1 c4EnemyPool 0).2 (by decide) (by decide) (by decide)
      (by decide)).2.2,
   (C4_pool_remove_swap.2 c4ProjPool (-1)).1 (by decide),
   (C4_pool_remove_swap.2 c4ProjPool 5).1 (by decide),
   ((C4_pool_remove_swap.2 c4ProjPool 0).2 (by decide) (by decide) (by decide) (by decide)).1,
   ((C4_pool_remove_swap.2 c4ProjPool 0).2 (by decide) (by decide) (by decide)
      (by decide)).2.1 (by decide),
   ((C4_pool_remove_swap.2 c4ProjPool 0).2 (by decide) (by decide) (by decide)
      (by decide)).2.2⟩

/-! ## Helper lemmas about `boss_damage` -/

theorem wrap16_eq_self {x : Int} (h1 : -32768 ≤ x) (h2 : x ≤ 32767) :
    wrap16 x = x := by
  unfold wrap16
  omega

/-- The early-out guards of `boss_damage`: a non-vulnerable boss or one with
running i-frames is returned untouched. -/
theorem boss_damage_blocked (g : Boss) (d : Int)
    (h : ¬ g.vulnerable = true ∨ 0 < g.invuln_timer) :
    boss_damage d g = g := by
  unfold boss_damage
  split_ifs <;> first | rfl | tauto

/-- Fields the Kraid flinch block never writes. -/
theorem boss_damage_kraid_flinch_fields (g : Boss) :
    (boss_damage_kraid_flinch g).hp = g.hp ∧
    (boss_damage_kraid_flinch g).invuln_timer = g.invuln_timer ∧
    (boss_damage_kraid_flinch g).type = g.type ∧
    (boss_damage_kraid_flinch g).active = g.active ∧
    (boss_damage_kraid_flinch g).phase = g.phase := by
  unfold boss_damage_kraid_flinch
  split_ifs <;> exact ⟨rfl, rfl, rfl, rfl, rfl⟩

/-- The Kraid flinch block is the identity on every other boss type. -/
theorem boss_damage_kraid_flinch_of_ne (g : Boss) (h : g.type ≠ BOSS_KRAID) :
    boss_damage_kraid_flinch g = g := by
  unfold boss_damage_kraid_flinch
  rw [if_neg (fun hc => h hc.1)]

/-- Fields the Phantoon rage block never writes. -/
theorem boss_damage_phantoon_rage_fields (d : Int) (g : Boss) :
    (boss_damage_phantoon_rage d g).hp = g.hp ∧
    (boss_damage_phantoon_rage d g).invuln_timer = g.invuln_timer ∧
    (boss_damage_phantoon_rage d g).type = g.type ∧
    (boss_damage_phantoon_rage d g).active = g.active ∧
    (boss_damage_phantoon_rage d g).ai_state = g.ai_state ∧
    (boss_damage_phantoon_rage d g).phase = g.phase := by
  unfold boss_damage_phantoon_rage
  split_ifs <;> exact ⟨rfl, rfl, rfl, rfl, rfl, rfl⟩

/-! ## Claim C1 -/

/-- A freshly spawned Crocomire: active, vulnerable, no i-frames, hp 9999. -/
def c1CrocBoss : Boss := boss_spawn BOSS_CROCOMIRE (INT_TO_FX 100) (INT_TO_FX 80) zeroBoss

/-- Counterexample to C1 as stated: Crocomire takes a qualifying hit
(active, vulnerable, no i-frames, positive damage) yet its hp is unchanged
instead of falling by the damage amount — the hit is converted into a
position push. -/
theorem C1_qualifying_hit_reduces_hp_counterexample :
    c1CrocBoss.active = true ∧ c1CrocBoss.vulnerable = true ∧
    c1CrocBoss.invuln_timer = 0 ∧ (0 : Int) < 100 ∧
    (boss_damage 100 c1CrocBoss).hp = c1CrocBoss.hp ∧
    c1CrocBoss.hp - 100 ≠ c1CrocBoss.hp := by decide

/-- C1 amended: blocked calls (vulnerable false or i-frames running) leave
the boss record entirely unchanged; a qualifying non-lethal hit on any boss
other than Crocomire (push mechanic) and other than Golden Torizo catching a
hit of damage ≥ 200 reduces hp by exactly the damage amount and sets the
invulnerability countdown to 10 frames, so the immediately following
`boss_damage` call changes nothing. -/
theorem C1_boss_damage_amended :
    (∀ (g : Boss) (d : Int), (¬ g.vulnerable = true ∨ 0 < g.invuln_timer) →
      boss_damage d g = g) ∧
    (∀ (g : Boss) (d dNext : Int),
      g.active = true → g.vulnerable = true → g.invuln_timer = 0 →
      g.type ≠ BOSS_CROCOMIRE →
      ¬(g.type = BOSS_GOLDEN_TORIZO ∧ d ≥ 200 ∧
        g.ai_state ≠ GT_CATCH ∧ g.ai_state ≠ GT_THROW_BACK) →
      0 ≤ d → g.hp ≤ 32767 → 0 < g.hp - d →
      (boss_damage d g).hp = g.hp - d ∧
      (boss_damage d g).invuln_timer = BOSS_HIT_INVULN ∧
      boss_damage dNext (boss_damage d g) = boss_damage d g) := by
  constructor
  · exact boss_damage_blocked
  · intro g d dNext ha hv hi hc hgt hd hhp hpos
    have hw : wrap16 (g.hp - d) = g.hp - d := wrap16_eq_self (by omega) (by omega)
    have key : (boss_damage d g).hp = g.hp - d ∧
        (boss_damage d g).invuln_timer = BOSS_HIT_INVULN := by
      unfold boss_damage
      rw [if_neg (by simp [ha]), if_neg (by simp [hv]), if_neg (by omega), if_neg hc]
      dsimp only
      set X1 : Boss := { g with hp := wrap16 (g.hp - d)
                                invuln_timer := BOSS_HIT_INVULN } with hX1
      have a1 : X1.hp = g.hp - d := hw
      have a2 : X1.invuln_timer = BOSS_HIT_INVULN := rfl
      have a3 : X1.type = g.type := rfl
      have a4 : X1.ai_state = g.ai_state := rfl
      set X2 : Boss := boss_damage_kraid_flinch X1 with hX2
      set X3 : Boss := boss_damage_phantoon_rage d X2 with hX3
      have f2 := boss_damage_kraid_flinch_fields X1
      have f3 := boss_damage_phantoon_rage_fields d X2
      rw [← hX2] at f2
      rw [← hX3] at f3
      have hphp : X3.hp = g.hp - d := by rw [f3.1, f2.1, a1]
      have hGTfalse : ¬(X3.type = BOSS_GOLDEN_TORIZO ∧ 0 < X3.hp ∧ d ≥ 200 ∧
          X3.ai_state ≠ GT_CATCH ∧ X3.ai_state ≠ GT_THROW_BACK) := by
        rintro ⟨t8, -, hd200, hc3, hc4⟩
        have tg : X3.type = g.type := by rw [f3.2.2.1, f2.2.2.1, a3]
        have tg8 : g.type = BOSS_GOLDEN_TORIZO := by rw [← tg, t8]
        have hne : X1.type ≠ BOSS_KRAID := by
          rw [a3, tg8]; decide
        have hX2id : X2 = X1 := by rw [hX2, boss_damage_kraid_flinch_of_ne X1 hne]
        have hai : X3.ai_state = g.ai_state := by rw [f3.2.2.2.2.1, hX2id, a4]
        exact hgt ⟨tg8, hd200, by rw [← hai]; exact hc3, by rw [← hai]; exact hc4⟩
      rw [if_neg hGTfalse, if_neg (by omega)]
      exact ⟨hphp, by rw [f3.2.1, f2.2.1, a2]⟩
    refine ⟨key.1, key.2, ?_⟩
    exact boss_damage_blocked _ dNext (Or.inr (by rw [key.2]; norm_num [BOSS_HIT_INVULN]))

/-- A freshly spawned Ridley: active, vulnerable, hp 18000, no special
damage handling. -/
def c1RidleyBoss : Boss := boss_spawn BOSS_RIDLEY (INT_TO_FX 120) (INT_TO_FX 80) zeroBoss

/-- A freshly spawned Spore Spawn: active but not vulnerable. -/
def c1SporeBoss : Boss := boss_spawn BOSS_SPORE_SPAWN (INT_TO_FX 120) (INT_TO_FX 40) zeroBoss

/-- Witness for the amended C1: a hit on non-vulnerable Spore Spawn changes
nothing; a 100-damage hit on Ridley takes hp from 18000 to 17900 and starts
the 10-frame window, and a follow-up hit inside the window changes
nothing. -/
theorem C1_boss_damage_amended_witness :
    boss_damage 77 c1SporeBoss = c1SporeBoss ∧
    (boss_damage 100 c1RidleyBoss).hp = c1RidleyBoss.hp - 100 ∧
    (boss_damage 100 c1RidleyBoss).invuln_timer = BOSS_HIT_INVULN ∧
    boss_damage 50 (boss_damage 100 c1RidleyBoss) = boss_damage 100 c1RidleyBoss :=
  ⟨C1_boss_damage_amended.1 c1SporeBoss 77 (Or.inl (by decide)),
   (C1_boss_damage_amended.2 c1RidleyBoss 100 50 (by decide) (by decide) (by decide)
      (by decide) (by decide) (by decide) (by decide) (by decide)).1,
   (C1_boss_damage_amended.2 c1RidleyBoss 100 50 (by decide) (by decide) (by decide)
      (by decide) (by decide) (by decide) (by decide) (by decide)).2.1,
   (C1_boss_damage_amended.2 c1RidleyBoss 100 50 (by decide) (by decide) (by decide)
      (by decide) (by decide) (by decide) (by decide) (by decide)).2.2⟩

/-- Fields the Crocomire push branch never writes. -/
theorem boss_damage_crocomire_fields (g : Boss) :
    (boss_damage_crocomire g).hp = g.hp ∧
    (boss_damage_crocomire g).active = g.active ∧
    (boss_damage_crocomire g).hp_max = g.hp_max := by
  unfold boss_damage_crocomire
  dsimp only
  split_ifs <;> exact ⟨rfl, rfl, rfl⟩

/-- The death switch keeps the boss active for every implemented boss type
(1–10 except Crocomire, which never reaches it). -/
theorem boss_damage_death_switch_active (g : Boss)
    (h1 : 1 ≤ g.type) (h2 : g.type ≤ 10) (h3 : g.type ≠ 2) :
    (boss_damage_death_switch g).active = g.active := by
  have inner : ∀ b : Boss, 1 ≤ b.type → b.type ≤ 10 → b.type ≠ 2 →
      (boss_damage_death_state b).active = b.active := by
    intro b b1 b2 b3
    unfold boss_damage_death_state
    by_cases t1 : b.type = 1
    · rw [if_pos t1]
    · rw [if_neg t1]
      by_cases t3 : b.type = 3
      · rw [if_pos t3]
      · rw [if_neg t3]
        by_cases t4 : b.type = 4
        · rw [if_pos t4]
        · rw [if_neg t4]
          by_cases t5 : b.type = 5
          · rw [if_pos t5]
          · rw [if_neg t5]
            by_cases t6 : b.type = 6
            · rw [if_pos t6]
            · rw [if_neg t6]
              by_cases t7 : b.type = 7
              · rw [if_pos t7]
              · rw [if_neg t7]
                by_cases t8 : b.type = 8
                · rw [if_pos t8]
                · rw [if_neg t8]
                  by_cases t9 : b.type = 9
                  · rw [if_pos t9]
                  · rw [if_neg t9]
                    by_cases t10 : b.type = 10
                    · rw [if_pos t10]
                      by_cases p0 : b.phase = 0
                      · rw [if_pos p0]
                      · rw [if_neg p0]
                        by_cases p1 : b.phase = 1
                        · rw [if_pos p1]
                        · rw [if_neg p1]
                    · exfalso
                      omega
  exact inner (boss_damage_kill_common g) h1 h2 h3

/-! ## Claim C6 -/

/-- A pool holding one active Rinka with 1 hp. -/
def c6Pool : EnemyPool :=
  ⟨{ zeroEnemy with type := 4, hp := 1, hp_max := 1, active := true } ::
     List.replicate 15 zeroEnemy, 1⟩

/-- Counterexample to C6 as stated: an enemy whose hp is driven to 0 by
`enemy_damage` has its active flag cleared by that very call — deactivation
is immediate, not deferred to a death sub-state machine. -/
theorem C6_deferred_deactivation_counterexample :
    (c6Pool.slots.getD 0 zeroEnemy).active = true ∧
    (c6Pool.slots.getD 0 zeroEnemy).hp - 1 ≤ 0 ∧
    ((enemy_damage 0 1 c6Pool).slots.getD 0 zeroEnemy).active = false := by decide

/-- C6 amended: an enemy damage call that drives hp to 0 or below clears the
slot's active flag immediately (the slot itself stays in the pool — removal
happens only later, in `enemy_update_all`); the boss singleton on the other
hand is never deactivated by `boss_damage` for any implemented boss type
(1–10): a lethal hit only moves it into the type-specific death or phase
state. -/
theorem C6_deferred_deactivation_amended :
    (∀ (p : EnemyPool) (i d : Int),
      0 ≤ i → i < (p.active_count : Int) →
      p.active_count ≤ MAX_ENEMIES → p.slots.length = MAX_ENEMIES →
      wrap16 ((p.slots.getD i.toNat zeroEnemy).hp - d) ≤ 0 →
      ((enemy_damage i d p).slots.getD i.toNat zeroEnemy).active = false ∧
      (enemy_damage i d p).active_count = p.active_count) ∧
    (∀ (g : Boss) (d : Int), 1 ≤ g.type → g.type ≤ 10 →
      (boss_damage d g).active = g.active) := by
  constructor
  · intro p i d h0 h1 h2 h3 hkill
    unfold enemy_damage
    rw [if_neg (by omega)]
    dsimp only
    rw [if_pos hkill]
    refine ⟨?_, rfl⟩
    rw [getD_set_self _ _ _ _ (by omega)]
  · intro g d h1 h2
    unfold boss_damage
    split_ifs with hA hV hI hC
    all_goals try rfl
    all_goals try exact (boss_damage_crocomire_fields g).2.1
    all_goals
    · dsimp only
      have hty : (boss_damage_phantoon_rage d (boss_damage_kraid_flinch
          { g with hp := wrap16 (g.hp - d), invuln_timer := BOSS_HIT_INVULN })).type
          = g.type := by
        rw [(boss_damage_phantoon_rage_fields _ _).2.2.1,
            (boss_damage_kraid_flinch_fields _).2.2.1]
      have hact : (boss_damage_phantoon_rage d (boss_damage_kraid_flinch
          { g with hp := wrap16 (g.hp - d), invuln_timer := BOSS_HIT_INVULN })).active
          = g.active := by
        rw [(boss_damage_phantoon_rage_fields _ _).2.2.2.1,
            (boss_damage_kraid_flinch_fields _).2.2.2.1]
      have hC2 : g.type ≠ 2 := hC
      split_ifs with hGT hHP
      · exact hact
      · rw [boss_damage_death_switch_active _ (by rw [hty]; exact h1)
            (by rw [hty]; exact h2) (by rw [hty]; exact hC2)]
        exact hact
      · exact hact

/-- A freshly spawned Draygon: active, vulnerable, hp 6000. -/
def c6DraygonBoss : Boss := boss_spawn BOSS_DRAYGON (INT_TO_FX 90) (INT_TO_FX 70) zeroBoss

/-- Witness for the amended C6: killing the 1-hp Rinka clears its active flag
in the damage call while the pool count is untouched, and a lethal 7000-damage
hit on Draygon leaves the boss singleton active. -/
theorem C6_deferred_deactivation_amended_witness :
    ((enemy_damage 0 1 c6Pool).slots.getD 0 zeroEnemy).active = false ∧
    (enemy_damage 0 1 c6Pool).active_count = c6Pool.active_count ∧
    (boss_damage 7000 c6DraygonBoss).active = c6DraygonBoss.active :=
  ⟨(C6_deferred_deactivation_amended.1 c6Pool 0 1 (by decide) (by decide) (by decide)
      (by decide) (by decide)).1,
   (C6_deferred_deactivation_amended.1 c6Pool 0 1 (by decide) (by decide) (by decide)
      (by decide) (by decide)).2,
   C6_deferred_deactivation_amended.2 c6DraygonBoss 7000 (by decide) (by decide)⟩

/-! ## Claim C7 -/

/-- Mother Brain in phase 1 (standing form) with 100 hp left, as reached
after the tank phase broke: the state a phase-2-ending hit is applied to. -/
def c7Phase2MB : Boss :=
  { boss_spawn BOSS_MOTHER_BRAIN (INT_TO_FX 200) (INT_TO_FX 100) zeroBoss with
      phase := 1, hp := 100, hp_max := MB_HP_PHASE2, ai_state := MB_STAND_IDLE }

/-- C7, evaluated at the failing input: the phase-2-ending hit enters
MB_HYPER_SETUP without deactivating the boss, and when the 120-frame
transition completes the phase index advances to 2 — but the int16 hp field
receives (int16_t)36000 = −29536 instead of the claimed 36,000, so phase 3
starts with hp ≤ 0. -/
theorem C7_mother_brain_phase3_hp_truncated :
    (boss_damage 150 c7Phase2MB).ai_state = MB_HYPER_SETUP ∧
    (boss_damage 150 c7Phase2MB).active = true ∧
    (mother_brain_update^[120] (boss_damage 150 c7Phase2MB)).phase = 2 ∧
    (mother_brain_update^[120] (boss_damage 150 c7Phase2MB)).ai_state = MB_HYPER_BEAM ∧
    (mother_brain_update^[120] (boss_damage 150 c7Phase2MB)).hp = -29536 ∧
    ¬ (mother_brain_update^[120] (boss_damage 150 c7Phase2MB)).hp = MB_HP_PHASE3 := by
  decide

/-! ## Claim C8 -/

/-- Fields the per-frame invulnerability tick never writes. -/
theorem boss_tick_invuln_fields (b : Boss) :
    (boss_tick_invuln b).ai_state = b.ai_state ∧
    (boss_tick_invuln b).ai_timer = b.ai_timer ∧
    (boss_tick_invuln b).active = b.active ∧
    (boss_tick_invuln b).hp = b.hp := by
  unfold boss_tick_invuln
  split_ifs <;> exact ⟨rfl, rfl, rfl, rfl⟩

/-- C8: a qualifying hit on Crocomire leaves hp unchanged and pushes its x
position by the fixed push amount, clamped at the lava threshold, which
`crocomire_init` anchors at spawn x plus the fixed threshold distance;
crossing the threshold enters CROC_FALLING, which after its frame count
enters CROC_DEATH, which after its frame count finally deactivates; and no
`boss_damage` call ever changes Crocomire's hp or active flag, so an
hp-based death cannot happen. -/
theorem C8_crocomire_push_mechanic :
    (∀ (g : Boss) (d : Int),
      g.type = BOSS_CROCOMIRE → g.active = true → g.vulnerable = true →
      g.invuln_timer = 0 →
      (boss_damage d g).hp = g.hp ∧
      (boss_damage d g).invuln_timer = BOSS_HIT_INVULN ∧
      (g.body.pos.x + CROC_PUSH_PER_HIT ≥ g.anchor_x →
        (boss_damage d g).body.pos.x = g.anchor_x ∧
        (boss_damage d g).ai_state = CROC_FALLING ∧
        (boss_damage d g).vulnerable = false) ∧
      (g.body.pos.x + CROC_PUSH_PER_HIT < g.anchor_x →
        (boss_damage d g).body.pos.x = g.body.pos.x + CROC_PUSH_PER_HIT ∧
        (boss_damage d g).ai_state = CROC_FLINCH)) ∧
    (∀ g : Boss, (crocomire_init g).anchor_x = g.body.pos.x + CROC_PUSH_THRESHOLD) ∧
    (∀ (px : Int) (b : Boss), b.ai_state = CROC_FALLING →
      (b.ai_timer + 1 ≥ CROC_FALL_FRAMES → (crocomire_update px b).ai_state = CROC_DEATH) ∧
      (b.ai_timer + 1 < CROC_FALL_FRAMES → (crocomire_update px b).ai_state = CROC_FALLING) ∧
      (crocomire_update px b).active = b.active) ∧
    (∀ (px : Int) (b : Boss), b.ai_state = CROC_DEATH →
      b.ai_timer + 1 ≥ CROC_DEATH_FRAMES → (crocomire_update px b).active = false) ∧
    (∀ (g : Boss) (d : Int), g.type = BOSS_CROCOMIRE →
      (boss_damage d g).hp = g.hp ∧ (boss_damage d g).active = g.active) := by
  refine ⟨?_, fun g => rfl, ?_, ?_, ?_⟩
  · intro g d ht ha hv hi
    unfold boss_damage
    rw [if_neg (by simp [ha]), if_neg (by simp [hv]), if_neg (by omega), if_pos ht]
    unfold boss_damage_crocomire
    dsimp only
    split_ifs with hthr
    · exact ⟨rfl, rfl, fun _ => ⟨rfl, rfl, rfl⟩, fun hlt => absurd hthr (by omega)⟩
    · exact ⟨rfl, rfl, fun hge => absurd hge (by omega), fun _ => ⟨rfl, rfl⟩⟩
  · intro px b hst
    have f := boss_tick_invuln_fields b
    unfold crocomire_update
    dsimp only
    rw [if_neg (by rw [f.1, hst]; decide), if_neg (by rw [f.1, hst]; decide),
        if_neg (by rw [f.1, hst]; decide), if_neg (by rw [f.1, hst]; decide),
        if_pos (by rw [f.1, hst])]
    rw [f.2.1]
    split_ifs with h45
    · exact ⟨fun _ => rfl, fun hlt => absurd h45 (by omega), f.2.2.1⟩
    · refine ⟨fun hge => absurd hge (by omega), fun _ => ?_, f.2.2.1⟩
      show (boss_tick_invuln b).ai_state = CROC_FALLING
      rw [f.1, hst]
  · intro px b hst h90
    have f := boss_tick_invuln_fields b
    unfold crocomire_update
    dsimp only
    rw [if_neg (by rw [f.1, hst]; decide), if_neg (by rw [f.1, hst]; decide),
        if_neg (by rw [f.1, hst]; decide), if_neg (by rw [f.1, hst]; decide),
        if_neg (by rw [f.1, hst]; decide), if_pos (by rw [f.1, hst])]
    rw [f.2.1]
    rw [if_pos (by omega)]
  · intro g d ht
    unfold boss_damage
    split_ifs <;>
      first
        | exact ⟨rfl, rfl⟩
        | exact ⟨(boss_damage_crocomire_fields g).1, (boss_damage_crocomire_fields g).2.1⟩

/-- A freshly spawned Crocomire at x = 100 px (lava threshold 260 px). -/
def c8Croc : Boss := boss_spawn BOSS_CROCOMIRE (INT_TO_FX 100) (INT_TO_FX 80) zeroBoss

/-- The same Crocomire pushed to 255 px, one hit from the threshold. -/
def c8CrocNear : Boss := { c8Croc with body.pos.x := INT_TO_FX 255 }

/-- Crocomire one frame before the fall completes. -/
def c8CrocFalling : Boss := { c8Croc with ai_state := CROC_FALLING, ai_timer := 44 }

/-- Crocomire one frame before the death sequence completes. -/
def c8CrocDying : Boss := { c8Croc with ai_state := CROC_DEATH, ai_timer := 89 }

/-- Witness for C8: a hit pushes Crocomire by 8 px into a flinch, the hit at
255 px clamps to the 260 px threshold and starts the fall, the fall and death
timers expire into CROC_DEATH and deactivation, and a 9999-damage hit leaves
hp and the active flag untouched. -/
theorem C8_crocomire_push_mechanic_witness :
    ((boss_damage 100 c8Croc).hp = c8Croc.hp ∧
     (boss_damage 100 c8Croc).body.pos.x = c8Croc.body.pos.x + CROC_PUSH_PER_HIT ∧
     (boss_damage 100 c8Croc).ai_state = CROC_FLINCH) ∧
    ((boss_damage 100 c8CrocNear).body.pos.x = c8CrocNear.anchor_x ∧
     (boss_damage 100 c8CrocNear).ai_state = CROC_FALLING ∧
     (boss_damage 100 c8CrocNear).vulnerable = false) ∧
    (crocomire_init zeroBoss).anchor_x = zeroBoss.body.pos.x + CROC_PUSH_THRESHOLD ∧
    (crocomire_update 0 c8CrocFalling).ai_state = CROC_DEATH ∧
    (crocomire_update 0 c8CrocDying).active = false ∧
    (boss_damage 9999 c8Croc).hp = c8Croc.hp ∧
    (boss_damage 9999 c8Croc).active = c8Croc.active :=
  ⟨⟨(C8_crocomire_push_mechanic.1 c8Croc 100 (by decide) (by decide) (by decide)
       (by decide)).1,
    ((C8_crocomire_push_mechanic.1 c8Croc 100 (by decide) (by decide) (by decide)
       (by decide)).2.2.2 (by decide)).1,
    ((C8_crocomire_push_mechanic.1 c8Croc 100 (by decide) (by decide) (by decide)
       (by decide)).2.2.2 (by decide)).2⟩,
   ⟨((C8_crocomire_push_mechanic.1 c8CrocNear 100 (by decide) (by decide) (by decide)
       (by decide)).2.2.1 (by decide)).1,
    ((C8_crocomire_push_mechanic.1 c8CrocNear 100 (by decide) (by decide) (by decide)
       (by decide)).2.2.1 (by decide)).2.1,
    ((C8_crocomire_push_mechanic.1 c8CrocNear 100 (by decide) (by decide) (by decide)
       (by decide)).2.2.1 (by decide)).2.2⟩,
   C8_crocomire_push_mechanic.2.1 zeroBoss,
   (C8_crocomire_push_mechanic.2.2.1 0 c8CrocFalling (by decide)).1 (by decide),
   C8_crocomire_push_mechanic.2.2.2.1 0 c8CrocDying (by decide) (by decide),
   (C8_crocomire_push_mechanic.2.2.2.2 c8Croc 9999 (by decide)).1,
   (C8_crocomire_push_mechanic.2.2.2.2 c8Croc 9999 (by decide)).2⟩

end SMPort
